import Mathlib

/-!
Verification development for the extra200tomqtt battery monitor
(`extra200tomqtt.py`).  The program polls battery units over a serial
link, decodes their replies, applies a derating and alarm policy per
unit (`parse_battery_data`), aggregates the per-unit records into one
consolidated record (`create_consolidated_view`), and tracks
consecutive serial failures in a process-wide counter.

The embedding below models the numeric pipeline over exact rationals,
Python dicts over insertion-ordered association lists, and the serial
reader over an explicit list of line or fault events.
-/

set_option maxHeartbeats 1600000

namespace Extra200

/-- Round half to even, as Python round does on exactly representable values. -/
def rhe (q : ℚ) : ℤ :=
  let f := ⌊q⌋
  let r := q - (f : ℚ)
  if r < 1/2 then f
  else if 1/2 < r then f + 1
  else if f % 2 = 0 then f else f + 1

/-- Python round(x, n) over exact rationals. -/
def pyRound (q : ℚ) (n : ℕ) : ℚ := (rhe (q * (10 : ℚ) ^ n) : ℚ) / (10 : ℚ) ^ n

/-- Python int() truncation toward zero. -/
def pyTrunc (q : ℚ) : ℤ := if q < 0 then -⌊-q⌋ else ⌊q⌋

/-- Python statistics.mean over exact rationals. -/
def qMean (l : List ℚ) : ℚ := l.sum / (l.length : ℚ)

/-- Python dict assignment d[k] = v on an insertion-ordered association list:
an existing key keeps its position, a new key is appended at the end. -/
def dictInsert {β : Type} (l : List (String × β)) (k : String) (v : β) :
    List (String × β) :=
  match l with
  | [] => [(k, v)]
  | (k₀, v₀) :: t => if k₀ = k then (k₀, v) :: t else (k₀, v₀) :: dictInsert t k v

/-- Python in-place mutation d[k] = f(d[k]); raises KeyError when k is absent. -/
def dictUpd {β : Type} (l : List (String × β)) (k : String) (f : β → β) :
    Except Unit (List (String × β)) :=
  match l with
  | [] => .error ()
  | (k₀, v₀) :: t =>
    if k₀ = k then .ok ((k₀, f v₀) :: t)
    else
      match dictUpd t k f with
      | .ok t₀ => .ok ((k₀, v₀) :: t₀)
      | .error e => .error e

/-- Substring occurrence on char lists. -/
def subList (p : List Char) : List Char → Bool
  | [] => p.isEmpty
  | c :: t => p.isPrefixOf (c :: t) || subList p t

/-- The Python substring test pat in s. -/
def containsSub (s pat : String) : Bool := subList pat.data s.data

/-- Python min(l, key=lambda x: x[1]): the first entry whose second component
is minimal (a later entry replaces the current one only when strictly smaller). -/
def pyMinBySnd {α : Type} (l : List (α × ℚ)) : Option (α × ℚ) :=
  match l with
  | [] => none
  | x :: xs => some (xs.foldl (fun b a => if a.2 < b.2 then a else b) x)

/-- Python max(l, key=lambda x: x[1]): the first entry whose second component
is maximal. -/
def pyMaxBySnd {α : Type} (l : List (α × ℚ)) : Option (α × ℚ) :=
  match l with
  | [] => none
  | x :: xs => some (xs.foldl (fun b a => if b.2 < a.2 then a else b) x)

/-- The thirteen alarm flags of a record (data["Alarms"]). -/
structure Alarms where
  LowVoltage : ℕ
  HighVoltage : ℕ
  LowSoc : ℕ
  HighChargeCurrent : ℕ
  HighDischargeCurrent : ℕ
  HighCurrent : ℕ
  CellImbalance : ℕ
  HighChargeTemperature : ℕ
  LowChargeTemperature : ℕ
  LowCellVoltage : ℕ
  LowTemperature : ℕ
  HighTemperature : ℕ
  FuseBlown : ℕ
deriving DecidableEq

/-- data["Io"]. -/
structure IoFlags where
  AllowToCharge : ℕ
  AllowToDischarge : ℕ
deriving DecidableEq

/-- data["Info"]. -/
structure InfoLimits where
  MaxChargeVoltage : ℚ
  MaxChargeCurrent : ℚ
  MaxDischargeCurrent : ℚ
deriving DecidableEq

/-- data["Dc"]; absent keys are none. -/
structure DcData where
  Voltage : Option ℚ := none
  Current : Option ℚ := none
  Temperature : Option ℚ := none
  Power : Option ℚ := none
deriving DecidableEq

/-- data["System"]. -/
structure SystemData where
  NrOfModulesOnline : ℕ
  NrOfModulesOffline : ℤ
  NrOfCellsPerBattery : ℕ
  NrOfModulesBlockingCharge : ℕ
  NrOfModulesBlockingDischarge : ℕ
  MOSTemperature : Option ℚ := none
  MinVoltageCellId : Option String := none
  MinCellVoltage : Option ℚ := none
  MaxVoltageCellId : Option String := none
  MaxCellVoltage : Option ℚ := none
  MinTemperatureCellId : Option String := none
  MinCellTemperature : Option ℚ := none
  MaxTemperatureCellId : Option String := none
  MaxCellTemperature : Option ℚ := none
deriving DecidableEq

/-- One telemetry record (both the per-unit shape and the consolidated shape). -/
structure BatteryData where
  Dc : DcData
  Soc : Option ℤ := none
  InstalledCapacity : Option ℚ := none
  Capacity : Option ℚ := none
  ConsumedAmphours : Option ℚ := none
  TimeToGo : Option ℤ := none
  Balancing : Option ℕ := none
  Alarms : Alarms
  Info : InfoLimits
  ChargeCycles : Option ℤ := none
  System : SystemData
  Voltages : List (String × ℚ) := []
  Balances : List (String × ℕ) := []
  Io : IoFlags
deriving DecidableEq

/-- The learned global_info fields (set once at startup by get_max_currents). -/
structure GlobalInfo where
  MaxChargeCurrent : Option ℚ := none
  MaxDischargeCurrent : Option ℚ := none
  CellCount : Option ℕ := none
deriving DecidableEq

/-- The configured defaults and learned limits visible to the policy engine. -/
structure Config where
  MAX_CHARGE_VOLTAGE : ℚ
  MAX_CHARGE_CURRENT : ℚ
  MAX_DISCHARGE_CURRENT : ℚ
  NUM_CELLS : ℕ
  BATTERY_ADDRESSES : List ℕ
  global_info : GlobalInfo
deriving DecidableEq

/-- The numeric values decoded from the recognized pwr lines: float(value) or
int(value) applied to the first whitespace token after the first colon, in the
raw device units (mV, mA, milli-degC, mAh).  A key that never parsed is none;
the three event registers default to 0 as in the source. -/
structure PwrFields where
  Voltage : Option ℚ := none
  Current : Option ℚ := none
  Temperature : Option ℚ := none
  Coulomb : Option ℤ := none
  TotalCoulomb : Option ℚ := none
  HeaterOn : Option Bool := none
  ChargeTimes : Option ℤ := none
  BatEvents : ℕ := 0
  PowerEvents : ℕ := 0
  SystemFault : ℕ := 0
deriving DecidableEq

/-- One successfully parsed line of the bat response: device cell index
(0-based, field 0), voltage in mV (field 1), temperature in milli-degC
(field 3), SoC percent (field 8). -/
structure CellReading where
  idx : ℕ
  voltage : ℚ
  temperature : ℚ
  soc : ℤ
deriving DecidableEq

/-- The tag used for cell_voltages and cell_temperatures entries. -/
def cellTag (r : CellReading) : String := "C" ++ toString (r.idx + 1)

/-- The cell_voltages list built in the bat loop (volts). -/
def cellVoltPairs (cells : List CellReading) : List (String × ℚ) :=
  cells.map (fun r => (cellTag r, r.voltage / 1000))

/-- The cell_temperatures list built in the bat loop (degC). -/
def cellTempPairs (cells : List CellReading) : List (String × ℚ) :=
  cells.map (fun r => (cellTag r, r.temperature / 1000))

/-- The record skeleton initialized at the top of parse_battery_data. -/
def initData (g : Config) : BatteryData :=
  { Dc := {}
    Alarms := ⟨0, 0, 0, 0, 0, 0, 0, 0, 0, 0, 0, 0, 0⟩
    Info := ⟨g.MAX_CHARGE_VOLTAGE,
             g.global_info.MaxChargeCurrent.getD g.MAX_CHARGE_CURRENT,
             g.global_info.MaxDischargeCurrent.getD g.MAX_DISCHARGE_CURRENT⟩
    System := { NrOfModulesOnline := 1, NrOfModulesOffline := 0,
                NrOfCellsPerBattery := g.global_info.CellCount.getD g.NUM_CELLS,
                NrOfModulesBlockingCharge := 0, NrOfModulesBlockingDischarge := 0 }
    Io := ⟨1, 1⟩ }

/-- The per-line pwr parsing loop: unit conversions and roundings per key. -/
def applyPwrFields (d : BatteryData) (p : PwrFields) : BatteryData :=
  let d := match p.Voltage with
    | some v => { d with Dc.Voltage := some (pyRound (v / 1000) 2) }
    | none => d
  let d := match p.Current with
    | some v => { d with Dc.Current := some (pyRound (v / 1000) 2) }
    | none => d
  let d := match p.Temperature with
    | some v => { d with Dc.Temperature := some (pyRound (v / 1000) 1),
                         System.MOSTemperature := some (pyRound (v / 1000) 1) }
    | none => d
  let d := match p.Coulomb with
    | some s => { d with Soc := some s }
    | none => d
  let d := match p.TotalCoulomb with
    | some v => { d with InstalledCapacity := some (pyRound (v / 1000) 1) }
    | none => d
  let d := match p.HeaterOn with
    | some b => { d with Balancing := some (if b then 1 else 0) }
    | none => d
  match p.ChargeTimes with
  | some n => { d with ChargeCycles := some n }
  | none => d

/-- Adjust MaxChargeVoltage based on SOC. -/
def applyChargeVoltage (d : BatteryData) : BatteryData :=
  match d.Soc with
  | none => d
  | some s =>
    if s < 95 then { d with Info.MaxChargeVoltage := 52.5 }
    else { d with Info.MaxChargeVoltage := 51.0 }

/-- Adjust MaxChargeCurrent based on SOC. -/
def applyChargeCurrent (g : Config) (d : BatteryData) : BatteryData :=
  match d.Soc with
  | none => d
  | some s =>
    if 90 < s then { d with Info.MaxChargeCurrent := 7.0 }
    else
      let b := pyRound ((g.global_info.MaxChargeCurrent.getD g.MAX_CHARGE_CURRENT) * 0.8) 1
      { d with Info.MaxChargeCurrent := b }

/-- The charge-temperature clamp on Dc.Temperature. -/
def applyTempClamp (d : BatteryData) : BatteryData :=
  match d.Dc.Temperature with
  | none => d
  | some t =>
    if t < 0 then
      { d with Io.AllowToCharge := 0, Info.MaxChargeCurrent := 0,
               Alarms.LowChargeTemperature := 1 }
    else if 0 ≤ t ∧ t < 5 then
      { d with Info.MaxChargeCurrent := min d.Info.MaxChargeCurrent 10 }
    else if 45 < t then
      { d with Info.MaxChargeCurrent := min d.Info.MaxChargeCurrent 10,
               Alarms.HighChargeTemperature := 1 }
    else d

/-- Limit discharge current and block discharge below 5 percent SOC. -/
def applyDischargeLimits (d : BatteryData) : BatteryData :=
  match d.Soc with
  | none => d
  | some s =>
    if s < 5 then
      { d with Io.AllowToDischarge := 0, Info.MaxDischargeCurrent := 0,
               Alarms.LowSoc := 1 }
    else if s < 10 then
      { d with Info.MaxDischargeCurrent := min d.Info.MaxDischargeCurrent 10,
               Alarms.LowSoc := 1 }
    else d

/-- Derived field Power = round(Voltage * Current, 1). -/
def derivedPower (d : BatteryData) : BatteryData :=
  match d.Dc.Current, d.Dc.Voltage with
  | some i, some v => { d with Dc.Power := some (pyRound (v * i) 1) }
  | _, _ => d

/-- Derived fields Capacity and ConsumedAmphours. -/
def derivedCapacity (d : BatteryData) : BatteryData :=
  match d.Soc, d.InstalledCapacity with
  | some s, some ic =>
    { d with Capacity := some (pyRound (((s : ℚ) / 100) * ic) 1),
             ConsumedAmphours := some (pyRound (ic - pyRound (((s : ℚ) / 100) * ic) 1) 1) }
  | _, _ => d

/-- Derived field TimeToGo, only while discharging. -/
def derivedTtg (d : BatteryData) : BatteryData :=
  match d.Capacity, d.Dc.Current with
  | some cap, some i =>
    if i < 0 then { d with TimeToGo := some (pyTrunc ((cap / |i|) * 3600)) } else d
  | _, _ => d

/-- The derived fields Power, Capacity, ConsumedAmphours, TimeToGo, in source
order. -/
def applyDerived (d : BatteryData) : BatteryData :=
  derivedTtg (derivedCapacity (derivedPower d))

/-- power_events_list: key and warning flag (true = warning, false = info). -/
def power_events_list : List (ℕ × Bool) :=
  [(0, false), (1, true), (2, true), (4, false), (8, true), (16, true),
   (32, true), (64, true), (128, true), (256, true), (512, true),
   (1024, false), (2048, true), (4096, true), (8192, true), (16384, true),
   (32768, true), (65536, true), (131072, true), (262144, true),
   (524288, true), (1048576, true), (2097152, false), (4194304, false),
   (8388608, false), (16777216, true), (33554432, true), (67108864, true),
   (134217728, true), (268435456, true), (536870912, true),
   (1073741824, true), (2147483648, true)]

/-- sys_events_list: key and warning flag. -/
def sys_events_list : List (ℕ × Bool) :=
  [(0, false), (1, true), (2, true), (4, true), (8, true), (16, true),
   (32, true), (64, true), (128, true), (256, true), (512, true),
   (1024, true), (2048, true)]

/-- severity = 1 if event[0] == "warning" else 0. -/
def severityOf (w : Bool) : ℕ := if w then 1 else 0

/-- The Bat Events block: a matched warning raises CellImbalance. -/
def batEvBlock (d : BatteryData) (bat_events : ℕ) : BatteryData :=
  if bat_events ≠ 0 then
    match power_events_list.lookup bat_events with
    | some true => { d with Alarms.CellImbalance := 1 }
    | _ => d
  else d

/-- The Power Events block: value-specific alarm assignment. -/
def powerEvBlock (d : BatteryData) (power_events : ℕ) : BatteryData :=
  if power_events ≠ 0 then
    match power_events_list.lookup power_events with
    | some w =>
      if power_events = 1 ∨ power_events = 2 then
        { d with Alarms.HighVoltage := severityOf w }
      else if power_events = 8 then
        { d with Alarms.LowVoltage := severityOf w }
      else if power_events = 16 then
        { d with Alarms.LowCellVoltage := severityOf w }
      else if power_events = 256 ∨ power_events = 512 then
        { d with Alarms.HighTemperature := severityOf w }
      else if power_events = 2048 ∨ power_events = 4096 then
        { d with Alarms.LowTemperature := severityOf w }
      else if power_events = 32768 then
        { d with Alarms.LowSoc := severityOf w }
      else if power_events = 131072 ∨ power_events = 524288 then
        { d with Alarms.HighDischargeCurrent := severityOf w }
      else if power_events = 262144 ∨ power_events = 1048576 then
        { d with Alarms.HighChargeCurrent := severityOf w }
      else if power_events = 65536 then
        { d with Alarms.FuseBlown := severityOf w }
      else d
    | none => d
  else d

/-- The System Fault block: matched values accumulate into FuseBlown via max. -/
def sysEvBlock (d : BatteryData) (sys_events : ℕ) : BatteryData :=
  if sys_events ≠ 0 then
    match sys_events_list.lookup sys_events with
    | some w =>
      if sys_events ∈ ([1, 2, 4, 8, 16, 32, 64, 128, 256, 512, 1024, 2048] : List ℕ) then
        { d with Alarms.FuseBlown := max d.Alarms.FuseBlown (severityOf w) }
      else d
    | none => d
  else d

/-- The Set Alarms section for the three decoded registers. -/
def applyEventAlarms (d : BatteryData) (bat_events power_events sys_events : ℕ) :
    BatteryData :=
  sysEvBlock (powerEvBlock (batEvBlock d bat_events) power_events) sys_events

/-- System min and max cell voltage statistics. -/
def cellVoltStats (d : BatteryData) (n : ℕ) (mn mx : String × ℚ) : BatteryData :=
  { d with System := { d.System with
      NrOfCellsPerBattery := n,
      MinVoltageCellId := some mn.1, MinCellVoltage := some (pyRound mn.2 3),
      MaxVoltageCellId := some mx.1, MaxCellVoltage := some (pyRound mx.2 3) } }

/-- Cell voltage protection: max cell above 3.65 V blocks charging. -/
def cellClampCharge (d : BatteryData) (mx : String × ℚ) : BatteryData :=
  if 3.65 < mx.2 then
    { d with Io.AllowToCharge := 0, Alarms.HighVoltage := 1 }
  else d

/-- Cell voltage protection: min cell below 2.5 V blocks discharging. -/
def cellClampDischarge (d : BatteryData) (mn : String × ℚ) : BatteryData :=
  if mn.2 < 2.5 then
    { d with Io.AllowToDischarge := 0, Alarms.LowCellVoltage := 1 }
  else d

/-- Balancing logic: flag the max cell when spread above 0.05 V and max above
3.4 V, else write a zero flag for every cell index 1..n. -/
def cellBalance (d : BatteryData) (n : ℕ) (mn mx : String × ℚ) : BatteryData :=
  if 0.05 < mx.2 - mn.2 ∧ 3.4 < mx.2 then
    { d with Balances := dictInsert d.Balances ("Cell" ++ mx.1.drop 1) 1 }
  else
    let bs := (List.range' 1 n).foldl (fun bs i => dictInsert bs ("Cell" ++ toString i) 0) d.Balances
    { d with Balances := bs }

/-- CellImbalance alarm on spread above 0.1 V. -/
def cellImbalanceAlarm (d : BatteryData) (mn mx : String × ℚ) : BatteryData :=
  if 0.1 < mx.2 - mn.2 then { d with Alarms.CellImbalance := 1 } else d

/-- System min and max cell temperature statistics. -/
def cellTempStats (d : BatteryData) (tmn tmx : String × ℚ) : BatteryData :=
  { d with System := { d.System with
      MinTemperatureCellId := some tmn.1, MinCellTemperature := some (pyRound tmn.2 1),
      MaxTemperatureCellId := some tmx.1, MaxCellTemperature := some (pyRound tmx.2 1) } }

/-- Cell temperature alarms. -/
def cellTempAlarms (d : BatteryData) (tmn tmx : String × ℚ) : BatteryData :=
  let d := if tmn.2 < 0 then { d with Alarms.LowTemperature := 1 } else d
  if 45 < tmx.2 then { d with Alarms.HighTemperature := 1 } else d

/-- The per-line part of the bat section: data["Voltages"]["CellN"] entries. -/
def applyCellsVolt (d : BatteryData) (cells : List CellReading) : BatteryData :=
  let vs := cells.foldl
    (fun vs r => dictInsert vs ("Cell" ++ toString (r.idx + 1)) (pyRound (r.voltage / 1000) 3))
    d.Voltages
  { d with Voltages := vs }

/-- The bat command section of parse_battery_data: records per-cell voltages
and, when at least one cell parsed, the statistics, protections, balancing
and temperature alarms. -/
def applyCells (d : BatteryData) (cells : List CellReading) : BatteryData :=
  match pyMinBySnd (cellVoltPairs cells), pyMaxBySnd (cellVoltPairs cells),
        pyMinBySnd (cellTempPairs cells), pyMaxBySnd (cellTempPairs cells) with
  | some mn, some mx, some tmn, some tmx =>
    cellTempAlarms
      (cellTempStats
        (cellImbalanceAlarm
          (cellBalance
            (cellClampDischarge
              (cellClampCharge
                (cellVoltStats (applyCellsVolt d cells) (cellVoltPairs cells).length mn mx)
                mx) mn)
            (cellVoltPairs cells).length mn mx)
          mn mx)
        tmn tmx)
      tmn tmx
  | _, _, _, _ => applyCellsVolt d cells

/-- The stages of parse_battery_data before the bat section, in source order. -/
def preCells (g : Config) (p : PwrFields) : BatteryData :=
  applyEventAlarms
    (applyDerived
      (applyDischargeLimits
        (applyTempClamp
          (applyChargeCurrent g
            (applyChargeVoltage
              (applyPwrFields (initData g) p))))))
    p.BatEvents p.PowerEvents p.SystemFault

/-- The record built by parse_battery_data for one unit, given the decoded pwr
fields and the successfully parsed bat cell lines.  The early return-None
paths (failed write, no lines) yield no record and are modelled by the caller
as an absent record; a skipped or empty bat section is the empty cells list. -/
def parse_battery_data (g : Config) (p : PwrFields) (cells : List CellReading) :
    BatteryData :=
  applyCells (preCells g p) cells

/-- One observable event inside the serial_read loop: a completed line
arriving, the timeout elapsing, or an exception from the port. -/
inductive SerialEv
  | recv (line : String)
  | timeoutEv
  | excEv
deriving DecidableEq

/-- How one serial_read call ends. -/
inductive ReadResult
  | completed (lines : List String)
  | timedOut (lines : List String)
  | errored
deriving DecidableEq

/-- The line-level loop of serial_read: collection begins once the start
marker is seen (immediately when the marker is the string none), the line
carrying the stop marker after that point ends the call, the timeout returns
the lines collected so far, and an exception ends the call with nothing.
Returns none when the event list runs out with the loop still going. -/
def serial_read_go (startMarker stopMarker : String) (started : Bool)
    (acc : List String) : List SerialEv → Option ReadResult
  | [] => none
  | .excEv :: _ => some .errored
  | .timeoutEv :: _ => some (.timedOut acc)
  | .recv s :: rest =>
    let started := started || startMarker == "none" || containsSub s startMarker
    let acc := if started then acc ++ [s] else acc
    if started && containsSub s stopMarker then some (.completed acc)
    else serial_read_go startMarker stopMarker started acc rest

/-- The list serial_read returns for each outcome. -/
def readLines : ReadResult → List String
  | .completed l => l
  | .timedOut l => l
  | .errored => []

/-- The update serial_read applies to consecutive_serial_failures. -/
def readCounter (c : ℕ) : ReadResult → ℕ
  | .completed _ => 0
  | .timedOut _ => c + 1
  | .errored => c + 1

/-- serial_read: returned lines and new failure counter, given the events. -/
def serial_read (startMarker stopMarker : String) (evs : List SerialEv) (c : ℕ) :
    Option (List String × ℕ) :=
  (serial_read_go startMarker stopMarker false [] evs).map
    fun r => (readLines r, readCounter c r)

/-- serial_write over the list of per-attempt outcomes (one Bool for each
iteration of the retry loop): a failed attempt increments the failure
counter and moves on, a successful attempt resets the counter to zero,
and running out of attempts returns failure. -/
def serial_write (c : ℕ) : List Bool → Bool × ℕ
  | [] => (false, c)
  | true :: _ => (true, 0)
  | false :: rest => serial_write (c + 1) rest

def MAX_CONSECUTIVE_FAILURES : ℕ := 10

/-- The check at the top of every main loop cycle that exits the process. -/
def mainLoopGate (c : ℕ) : Bool := decide (MAX_CONSECUTIVE_FAILURES ≤ c)

/-- Field-wise max of two alarm sets (the aggregation loop over
data["Alarms"].items()). -/
def alarmsMax (a b : Alarms) : Alarms :=
  ⟨max a.LowVoltage b.LowVoltage, max a.HighVoltage b.HighVoltage,
   max a.LowSoc b.LowSoc, max a.HighChargeCurrent b.HighChargeCurrent,
   max a.HighDischargeCurrent b.HighDischargeCurrent,
   max a.HighCurrent b.HighCurrent, max a.CellImbalance b.CellImbalance,
   max a.HighChargeTemperature b.HighChargeTemperature,
   max a.LowChargeTemperature b.LowChargeTemperature,
   max a.LowCellVoltage b.LowCellVoltage, max a.LowTemperature b.LowTemperature,
   max a.HighTemperature b.HighTemperature, max a.FuseBlown b.FuseBlown⟩

/-- One iteration of the alarm and Io aggregation loop of
create_consolidated_view. -/
def aggStep (c r : BatteryData) : BatteryData :=
  let c := { c with Alarms := alarmsMax c.Alarms r.Alarms }
  let c := { c with Io := ⟨min c.Io.AllowToCharge r.Io.AllowToCharge,
                           min c.Io.AllowToDischarge r.Io.AllowToDischarge⟩ }
  let c := if r.Io.AllowToCharge = 0 then
      { c with System.NrOfModulesBlockingCharge := c.System.NrOfModulesBlockingCharge + 1 }
    else c
  if r.Io.AllowToDischarge = 0 then
    { c with System.NrOfModulesBlockingDischarge := c.System.NrOfModulesBlockingDischarge + 1 }
  else c

/-- The consolidated record skeleton. -/
def consolidatedInit (g : Config) (n : ℕ) : BatteryData :=
  { Dc := {}
    Alarms := ⟨0, 0, 0, 0, 0, 0, 0, 0, 0, 0, 0, 0, 0⟩
    Info := ⟨g.MAX_CHARGE_VOLTAGE, 0, 0⟩
    System := { NrOfModulesOnline := n,
                NrOfModulesOffline := (g.BATTERY_ADDRESSES.length : ℤ) - (n : ℤ),
                NrOfCellsPerBattery := g.global_info.CellCount.getD g.NUM_CELLS,
                NrOfModulesBlockingCharge := 0, NrOfModulesBlockingDischarge := 0 }
    Io := ⟨1, 1⟩ }

/-- The keys Cell1..CellCount of the cell_voltages and cell_balances dicts. -/
def cellKeys (g : Config) : List String :=
  (List.range' 1 (g.global_info.CellCount.getD g.NUM_CELLS)).map
    (fun i => "Cell" ++ toString i)

/-- Appending one record voltage map into cell_voltages; a key outside the
dict raises KeyError. -/
def appendVolts (acc : List (String × (List ℚ × List ℕ))) :
    List (String × ℚ) → Except Unit (List (String × (List ℚ × List ℕ)))
  | [] => .ok acc
  | (k, v) :: t =>
    match dictUpd acc k (fun p => (p.1 ++ [v], p.2)) with
    | .ok acc₀ => appendVolts acc₀ t
    | .error e => .error e

/-- Appending one record balance map into cell_balances; a key outside the
dict raises KeyError. -/
def appendBals (acc : List (String × (List ℚ × List ℕ))) :
    List (String × ℕ) → Except Unit (List (String × (List ℚ × List ℕ)))
  | [] => .ok acc
  | (k, b) :: t =>
    match dictUpd acc k (fun p => (p.1, p.2 ++ [b])) with
    | .ok acc₀ => appendBals acc₀ t
    | .error e => .error e

/-- The collection loop filling cell_voltages and cell_balances from every
record, in record order. -/
def cellAggGo (acc : List (String × (List ℚ × List ℕ))) :
    List BatteryData → Except Unit (List (String × (List ℚ × List ℕ)))
  | [] => .ok acc
  | r :: rest =>
    match appendVolts acc r.Voltages with
    | .error e => .error e
    | .ok acc₀ =>
      match appendBals acc₀ r.Balances with
      | .error e => .error e
      | .ok acc₁ => cellAggGo acc₁ rest

/-- cell_voltages and cell_balances, initialized over Cell1..CellCount. -/
def cellAgg (g : Config) (recs : List BatteryData) :
    Except Unit (List (String × (List ℚ × List ℕ))) :=
  cellAggGo ((cellKeys g).map (fun k => (k, ([], [])))) recs

/-- One cell of the per-cell mean voltage and or-ed balance loop. -/
def perCellStep (c : BatteryData) (kvb : String × (List ℚ × List ℕ)) : BatteryData :=
  if kvb.2.1 ≠ [] then
    { c with Voltages := dictInsert c.Voltages kvb.1 (pyRound (qMean kvb.2.1) 3),
             Balances := dictInsert c.Balances kvb.1
               (if kvb.2.2.any (fun b => b != 0) then 1 else 0) }
  else c

/-- Per-cell mean voltage and or-ed balance over the cells that reported. -/
def perCellMeans (c : BatteryData) (agg : List (String × (List ℚ × List ℕ))) :
    BatteryData :=
  agg.foldl perCellStep c

/-- System-level min and max over every unit cell voltage, and the fleet
CellImbalance alarm on spread above 0.1 V. -/
def fleetStats (c : BatteryData) (recs : List BatteryData) : BatteryData :=
  match pyMinBySnd ((recs.map (fun r => r.Voltages)).flatten),
        pyMaxBySnd ((recs.map (fun r => r.Voltages)).flatten) with
  | some mn, some mx =>
    let c := { c with System := { c.System with
        MinVoltageCellId := some mn.1, MinCellVoltage := some (pyRound mn.2 3),
        MaxVoltageCellId := some mx.1, MaxCellVoltage := some (pyRound mx.2 3) } }
    if 0.1 < mx.2 - mn.2 then { c with Alarms.CellImbalance := 1 } else c
  | _, _ => c

/-- Aggregate Dc metrics: mean voltage, summed current and power, mean
temperature. -/
def dcAggDc (c : BatteryData) (recs : List BatteryData) : BatteryData :=
  let voltages : List ℚ := recs.filterMap (fun r => r.Dc.Voltage)
  let currents : List ℚ := recs.filterMap (fun r => r.Dc.Current)
  let powers : List ℚ := recs.filterMap (fun r => r.Dc.Power)
  let temperatures : List ℚ := recs.filterMap (fun r => r.Dc.Temperature)
  let c := if voltages ≠ [] then { c with Dc.Voltage := some (pyRound (qMean voltages) 2) } else c
  let c := if currents ≠ [] then { c with Dc.Current := some (pyRound currents.sum 2) } else c
  let c := if powers ≠ [] then { c with Dc.Power := some (pyRound powers.sum 1) } else c
  if temperatures ≠ [] then
    { c with Dc.Temperature := some (pyRound (qMean temperatures) 1),
             System.MOSTemperature := some (pyRound (qMean temperatures) 1) }
  else c

/-- Aggregate scalar metrics: rounded mean SoC, summed capacities, mean
charge cycles. -/
def dcAggScalars (c : BatteryData) (recs : List BatteryData) : BatteryData :=
  let socs : List ℤ := recs.filterMap (fun r => r.Soc)
  let ics : List ℚ := recs.filterMap (fun r => r.InstalledCapacity)
  let caps : List ℚ := recs.filterMap (fun r => r.Capacity)
  let cons : List ℚ := recs.filterMap (fun r => r.ConsumedAmphours)
  let cycles : List ℤ := recs.filterMap (fun r => r.ChargeCycles)
  let c := if socs ≠ [] then
      { c with Soc := some (rhe ((socs.map (fun s => (s : ℚ))).sum / (socs.length : ℚ))) }
    else c
  let c := if ics ≠ [] then { c with InstalledCapacity := some (pyRound ics.sum 1) } else c
  let c := if caps ≠ [] then { c with Capacity := some (pyRound caps.sum 1) } else c
  let c := if cons ≠ [] then { c with ConsumedAmphours := some (pyRound cons.sum 1) } else c
  if cycles ≠ [] then
    { c with ChargeCycles := some (rhe ((cycles.map (fun s => (s : ℚ))).sum / (cycles.length : ℚ))) }
  else c

/-- Python min over a nonempty numeric list. -/
def qListMin : List ℚ → Option ℚ
  | [] => none
  | x :: xs => some (xs.foldl min x)

/-- Aggregate Info limits: min MaxChargeVoltage, min current limits scaled by
the number of records. -/
def dcAggLimits (c : BatteryData) (recs : List BatteryData) : BatteryData :=
  let c := match qListMin (recs.map (fun r => r.Info.MaxChargeVoltage)) with
    | some m => { c with Info.MaxChargeVoltage := m }
    | none => c
  let c := match qListMin (recs.map (fun r => r.Info.MaxChargeCurrent)) with
    | some m => { c with Info.MaxChargeCurrent := pyRound (m * (recs.length : ℚ)) 1 }
    | none => c
  match qListMin (recs.map (fun r => r.Info.MaxDischargeCurrent)) with
  | some m => { c with Info.MaxDischargeCurrent := pyRound (m * (recs.length : ℚ)) 1 }
  | none => c

/-- Fleet TimeToGo under the discharging-only rule. -/
def dcAggTtg (c : BatteryData) : BatteryData :=
  match c.Capacity, c.Dc.Current with
  | some cap, some i =>
    if i < 0 then { c with TimeToGo := some (pyTrunc ((cap / |i|) * 3600)) } else c
  | _, _ => c

/-- create_consolidated_view: none for an empty list, otherwise the
aggregated record; a record reporting a cell key outside Cell1..CellCount
makes the collection loop raise (error). -/
def create_consolidated_view (g : Config) (recs : List BatteryData) :
    Except Unit (Option BatteryData) :=
  if recs = [] then .ok none
  else
    match cellAgg g recs with
    | .error e => .error e
    | .ok agg =>
      .ok (some (dcAggTtg (dcAggLimits (dcAggScalars (dcAggDc
        (fleetStats (perCellMeans (recs.foldl aggStep (consolidatedInit g recs.length)) agg)
          recs) recs) recs) recs)))

/-- The synthetic record published for an unreachable address. -/
def offline_data (g : Config) : BatteryData :=
  { Dc := {}
    Alarms := ⟨0, 0, 1, 0, 0, 0, 0, 0, 0, 0, 0, 0, 0⟩
    Info := ⟨g.MAX_CHARGE_VOLTAGE, 0, 0⟩
    System := { NrOfModulesOnline := 0, NrOfModulesOffline := 1,
                NrOfCellsPerBattery := g.global_info.CellCount.getD g.NUM_CELLS,
                NrOfModulesBlockingCharge := 1, NrOfModulesBlockingDischarge := 1 }
    Io := ⟨0, 0⟩ }

/-- battery_data_list as built by one main loop cycle: every configured
address contributes its parsed record or, when parse_battery_data returned
none, the synthetic offline record. -/
def buildCycleList (g : Config) (f : ℕ → Option BatteryData) : List BatteryData :=
  g.BATTERY_ADDRESSES.map (fun a => (f a).getD (offline_data g))

/-- How one main loop cycle body ends. -/
inductive CycleOutcome
  | exitThreshold
  | completedCycle
  | crashed
deriving DecidableEq

/-- One main loop cycle: the failure threshold check, then acquisition of one
record per address, then the consolidated view; an exception escaping
create_consolidated_view is an uncaught crash of the loop. -/
def runCycle (g : Config) (c : ℕ) (f : ℕ → Option BatteryData) (mqttActive : Bool) :
    CycleOutcome :=
  if mainLoopGate c then .exitThreshold
  else
    let recs := buildCycleList g f
    if recs ≠ [] ∧ mqttActive then
      match create_consolidated_view g recs with
      | .ok _ => .completedCycle
      | .error _ => .crashed
    else .completedCycle

/-- Specification-side: v is the maximum of the list. -/
def isMaxOf (v : ℕ) (l : List ℕ) : Prop := v ∈ l ∧ ∀ x ∈ l, x ≤ v

/-- Specification-side: v is the minimum of the list. -/
def isMinOf (v : ℕ) (l : List ℕ) : Prop := v ∈ l ∧ ∀ x ∈ l, v ≤ x

/-- Number of set bits among the 32 register bits. -/
def popCount32 (n : ℕ) : ℕ := (List.range 32).countP (fun i => n.testBit i)

/-- Specification-side: the fleet spread indicator create_consolidated_view
folds into the consolidated CellImbalance alarm. -/
def fleetImbalanceFlag (recs : List BatteryData) : ℕ :=
  match pyMinBySnd ((recs.map (fun r => r.Voltages)).flatten),
        pyMaxBySnd ((recs.map (fun r => r.Voltages)).flatten) with
  | some mn, some mx => if 0.1 < mx.2 - mn.2 then 1 else 0
  | _, _ => 0

/-- Specification-side: the per-unit records carry 0-or-1 flags where the
aggregation claim needs it. -/
def flagsBounded (r : BatteryData) : Prop :=
  r.Alarms.CellImbalance ≤ 1 ∧ r.Io.AllowToCharge ≤ 1 ∧ r.Io.AllowToDischarge ≤ 1

/-- Specification-side statement of the consolidated alarm and Io
aggregation: every alarm flag is the maximum over the records, except
CellImbalance which also folds in the fleet spread indicator, and the Io
flags are minima over the records. -/
def consolidatedAggSpec (recs : List BatteryData) (out : BatteryData) : Prop :=
  isMaxOf out.Alarms.LowVoltage (recs.map fun r => r.Alarms.LowVoltage)
  ∧ isMaxOf out.Alarms.HighVoltage (recs.map fun r => r.Alarms.HighVoltage)
  ∧ isMaxOf out.Alarms.LowSoc (recs.map fun r => r.Alarms.LowSoc)
  ∧ isMaxOf out.Alarms.HighChargeCurrent (recs.map fun r => r.Alarms.HighChargeCurrent)
  ∧ isMaxOf out.Alarms.HighDischargeCurrent (recs.map fun r => r.Alarms.HighDischargeCurrent)
  ∧ isMaxOf out.Alarms.HighCurrent (recs.map fun r => r.Alarms.HighCurrent)
  ∧ isMaxOf out.Alarms.CellImbalance
      (fleetImbalanceFlag recs :: recs.map fun r => r.Alarms.CellImbalance)
  ∧ isMaxOf out.Alarms.HighChargeTemperature (recs.map fun r => r.Alarms.HighChargeTemperature)
  ∧ isMaxOf out.Alarms.LowChargeTemperature (recs.map fun r => r.Alarms.LowChargeTemperature)
  ∧ isMaxOf out.Alarms.LowCellVoltage (recs.map fun r => r.Alarms.LowCellVoltage)
  ∧ isMaxOf out.Alarms.LowTemperature (recs.map fun r => r.Alarms.LowTemperature)
  ∧ isMaxOf out.Alarms.HighTemperature (recs.map fun r => r.Alarms.HighTemperature)
  ∧ isMaxOf out.Alarms.FuseBlown (recs.map fun r => r.Alarms.FuseBlown)
  ∧ isMinOf out.Io.AllowToCharge (recs.map fun r => r.Io.AllowToCharge)
  ∧ isMinOf out.Io.AllowToDischarge (recs.map fun r => r.Io.AllowToDischarge)

/-- Specification-side: a record keeps its cell keys within Cell1..CellCount. -/
def recordKeysOK (g : Config) (d : BatteryData) : Prop :=
  (∀ p ∈ d.Voltages, p.1 ∈ cellKeys g) ∧ (∀ p ∈ d.Balances, p.1 ∈ cellKeys g)

/-- Specification-side: the base charge-current limit of the charge policy:
7.0 A above 90 percent SoC, otherwise 0.8 times the learned fleet
MaxChargeCurrent rounded to one decimal place. -/
def chargeBase (g : Config) (soc : ℤ) : ℚ :=
  if 90 < soc then 7.0
  else pyRound ((g.global_info.MaxChargeCurrent.getD g.MAX_CHARGE_CURRENT) * 0.8) 1

/-! Concrete instances used by witnesses and counterexamples. -/

/-- A configuration with the default config.yaml ceilings. -/
def cfgA : Config :=
  { MAX_CHARGE_VOLTAGE := 51, MAX_CHARGE_CURRENT := 50, MAX_DISCHARGE_CURRENT := 50,
    NUM_CELLS := 15, BATTERY_ADDRESSES := [1, 2], global_info := {} }

/-- A small three-cell configuration. -/
def cfgSmall : Config :=
  { MAX_CHARGE_VOLTAGE := 51, MAX_CHARGE_CURRENT := 50, MAX_DISCHARGE_CURRENT := 50,
    NUM_CELLS := 3, BATTERY_ADDRESSES := [1, 2], global_info := {} }

/-- A configuration whose learned fleet MaxChargeCurrent is 49.9 A (the device
reported 49900 mA). -/
def cfgLearned : Config :=
  { cfgA with global_info := { MaxChargeCurrent := some (499/10) } }

/-- Extract the record from an ok-some consolidated result (fallback record
otherwise). -/
def exOk (g : Config) (e : Except Unit (Option BatteryData)) : BatteryData :=
  match e with
  | .ok (some o) => o
  | _ => initData g

def ceC1cells : List CellReading := [⟨0, 3700, 25000, 50⟩]
def pwrSoc50T20 : PwrFields := { Coulomb := some 50, Temperature := some 20000 }
def pwrSoc50Tneg : PwrFields := { Coulomb := some 50, Temperature := some (-1000) }
def pwrSoc3 : PwrFields := { Coulomb := some 3 }
def c3cells : List CellReading := [⟨0, 2400, 25000, 3⟩]
def c4cells : List CellReading := [⟨0, 3500, 25000, 50⟩, ⟨1, 3300, 25000, 50⟩]
def recA : BatteryData := parse_battery_data cfgSmall {} [⟨0, 3000, 25000, 50⟩]
def recB : BatteryData := parse_battery_data cfgSmall {} [⟨0, 3200, 25000, 50⟩]
def recBad : BatteryData := parse_battery_data cfgSmall {} [⟨5, 3300, 25000, 50⟩]
def conAB : BatteryData := exOk cfgSmall (create_consolidated_view cfgSmall [recA, recB])
def conOff : BatteryData :=
  exOk cfgSmall (create_consolidated_view cfgSmall (buildCycleList cfgSmall (fun _ => none)))

def c6start : String := "Battery"
def c6stop : String := "Command completed"
def c6lineA : String := "Battery data for address 1"
def c6lineStop : String := "Command completed successfully"
def c6lineX : String := "ignored"

/-! Helper lemmas. -/

theorem applyPwrFields_Info (d : BatteryData) (p : PwrFields) :
    (applyPwrFields d p).Info = d.Info := by
  unfold applyPwrFields; (repeat' split) <;> rfl

theorem applyPwrFields_Alarms (d : BatteryData) (p : PwrFields) :
    (applyPwrFields d p).Alarms = d.Alarms := by
  unfold applyPwrFields; (repeat' split) <;> rfl

theorem applyPwrFields_Io (d : BatteryData) (p : PwrFields) :
    (applyPwrFields d p).Io = d.Io := by
  unfold applyPwrFields; (repeat' split) <;> rfl

theorem applyPwrFields_Balances (d : BatteryData) (p : PwrFields) :
    (applyPwrFields d p).Balances = d.Balances := by
  unfold applyPwrFields; (repeat' split) <;> rfl

theorem applyPwrFields_Soc (d : BatteryData) (p : PwrFields) (s : ℤ)
    (h : p.Coulomb = some s) : (applyPwrFields d p).Soc = some s := by
  unfold applyPwrFields; (repeat' split) <;> simp_all

theorem applyPwrFields_Temp (d : BatteryData) (p : PwrFields) (v : ℚ)
    (h : p.Temperature = some v) :
    (applyPwrFields d p).Dc.Temperature = some (pyRound (v / 1000) 1) := by
  unfold applyPwrFields; (repeat' split) <;> simp_all

theorem applyChargeVoltage_pres (d : BatteryData) :
    (applyChargeVoltage d).Dc = d.Dc ∧ (applyChargeVoltage d).Alarms = d.Alarms ∧
    (applyChargeVoltage d).Io = d.Io ∧ (applyChargeVoltage d).Soc = d.Soc ∧
    (applyChargeVoltage d).Info.MaxChargeCurrent = d.Info.MaxChargeCurrent ∧
    (applyChargeVoltage d).Info.MaxDischargeCurrent = d.Info.MaxDischargeCurrent ∧
    (applyChargeVoltage d).Balances = d.Balances := by
  unfold applyChargeVoltage
  (repeat' split) <;> exact ⟨rfl, rfl, rfl, rfl, rfl, rfl, rfl⟩

theorem applyChargeCurrent_pres (g : Config) (d : BatteryData) :
    (applyChargeCurrent g d).Dc = d.Dc ∧ (applyChargeCurrent g d).Alarms = d.Alarms ∧
    (applyChargeCurrent g d).Io = d.Io ∧ (applyChargeCurrent g d).Soc = d.Soc ∧
    (applyChargeCurrent g d).Info.MaxDischargeCurrent = d.Info.MaxDischargeCurrent ∧
    (applyChargeCurrent g d).Balances = d.Balances := by
  unfold applyChargeCurrent
  (repeat' split) <;> exact ⟨rfl, rfl, rfl, rfl, rfl, rfl⟩

theorem applyChargeCurrent_MCC (g : Config) (d : BatteryData) (s : ℤ)
    (h : d.Soc = some s) :
    (applyChargeCurrent g d).Info.MaxChargeCurrent =
      (if 90 < s then (7.0 : ℚ)
       else pyRound ((g.global_info.MaxChargeCurrent.getD g.MAX_CHARGE_CURRENT) * 0.8) 1) := by
  unfold applyChargeCurrent; (repeat' split) <;> simp_all

theorem applyTempClamp_pres (d : BatteryData) :
    (applyTempClamp d).Soc = d.Soc ∧
    (applyTempClamp d).Info.MaxDischargeCurrent = d.Info.MaxDischargeCurrent ∧
    (applyTempClamp d).Io.AllowToDischarge = d.Io.AllowToDischarge ∧
    (applyTempClamp d).Alarms.LowSoc = d.Alarms.LowSoc ∧
    (applyTempClamp d).Balances = d.Balances := by
  unfold applyTempClamp
  (repeat' split) <;> exact ⟨rfl, rfl, rfl, rfl, rfl⟩

theorem applyTempClamp_cold (d : BatteryData) (t : ℚ)
    (h : d.Dc.Temperature = some t) (ht : t < 0) :
    (applyTempClamp d).Info.MaxChargeCurrent = 0 ∧
    (applyTempClamp d).Io.AllowToCharge = 0 ∧
    (applyTempClamp d).Alarms.LowChargeTemperature = 1 := by
  unfold applyTempClamp; (repeat' split) <;> simp_all

theorem applyTempClamp_cool (d : BatteryData) (t : ℚ)
    (h : d.Dc.Temperature = some t) (h0 : 0 ≤ t) (h5 : t < 5) :
    (applyTempClamp d).Info.MaxChargeCurrent = min d.Info.MaxChargeCurrent 10 ∧
    (applyTempClamp d).Alarms = d.Alarms ∧ (applyTempClamp d).Io = d.Io := by
  unfold applyTempClamp
  (repeat' split) <;> simp_all
  all_goals exfalso; linarith

theorem applyTempClamp_hot (d : BatteryData) (t : ℚ)
    (h : d.Dc.Temperature = some t) (h45 : 45 < t) :
    (applyTempClamp d).Info.MaxChargeCurrent = min d.Info.MaxChargeCurrent 10 ∧
    (applyTempClamp d).Alarms.HighChargeTemperature = 1 ∧
    (applyTempClamp d).Alarms.LowChargeTemperature = d.Alarms.LowChargeTemperature ∧
    (applyTempClamp d).Io = d.Io := by
  unfold applyTempClamp
  (repeat' split) <;> simp_all
  all_goals exfalso; linarith

theorem applyTempClamp_mild (d : BatteryData) (t : ℚ)
    (h : d.Dc.Temperature = some t) (h1 : ¬ t < 0) (h2 : ¬ (0 ≤ t ∧ t < 5))
    (h3 : ¬ 45 < t) : applyTempClamp d = d := by
  unfold applyTempClamp
  (repeat' split) <;> simp_all
  all_goals exfalso; linarith

theorem applyDischargeLimits_pres (d : BatteryData) :
    (applyDischargeLimits d).Info.MaxChargeCurrent = d.Info.MaxChargeCurrent ∧
    (applyDischargeLimits d).Io.AllowToCharge = d.Io.AllowToCharge ∧
    (applyDischargeLimits d).Alarms.LowChargeTemperature = d.Alarms.LowChargeTemperature ∧
    (applyDischargeLimits d).Alarms.HighChargeTemperature = d.Alarms.HighChargeTemperature ∧
    (applyDischargeLimits d).Balances = d.Balances ∧
    (applyDischargeLimits d).Dc = d.Dc ∧
    (applyDischargeLimits d).Alarms.HighVoltage = d.Alarms.HighVoltage ∧
    (applyDischargeLimits d).Alarms.LowCellVoltage = d.Alarms.LowCellVoltage := by
  unfold applyDischargeLimits
  (repeat' split) <;> exact ⟨rfl, rfl, rfl, rfl, rfl, rfl, rfl, rfl⟩

theorem applyDischargeLimits_low (d : BatteryData) (s : ℤ)
    (h : d.Soc = some s) (hs : s < 5) :
    (applyDischargeLimits d).Info.MaxDischargeCurrent = 0 ∧
    (applyDischargeLimits d).Io.AllowToDischarge = 0 ∧
    (applyDischargeLimits d).Alarms.LowSoc = 1 := by
  unfold applyDischargeLimits
  (repeat' split) <;> simp_all
  all_goals exfalso; omega

theorem applyDischargeLimits_mid (d : BatteryData) (s : ℤ)
    (h : d.Soc = some s) (h5 : 5 ≤ s) (h10 : s < 10) :
    (applyDischargeLimits d).Info.MaxDischargeCurrent = min d.Info.MaxDischargeCurrent 10 ∧
    (applyDischargeLimits d).Alarms.LowSoc = 1 ∧
    (applyDischargeLimits d).Io = d.Io := by
  unfold applyDischargeLimits
  (repeat' split) <;> simp_all
  all_goals exfalso; omega

theorem derivedPower_pres (d : BatteryData) :
    (derivedPower d).Info = d.Info ∧ (derivedPower d).Alarms = d.Alarms ∧
    (derivedPower d).Io = d.Io ∧ (derivedPower d).Balances = d.Balances := by
  unfold derivedPower
  (repeat' split) <;> exact ⟨rfl, rfl, rfl, rfl⟩

theorem derivedCapacity_pres (d : BatteryData) :
    (derivedCapacity d).Info = d.Info ∧ (derivedCapacity d).Alarms = d.Alarms ∧
    (derivedCapacity d).Io = d.Io ∧ (derivedCapacity d).Balances = d.Balances := by
  unfold derivedCapacity
  (repeat' split) <;> exact ⟨rfl, rfl, rfl, rfl⟩

theorem derivedTtg_pres (d : BatteryData) :
    (derivedTtg d).Info = d.Info ∧ (derivedTtg d).Alarms = d.Alarms ∧
    (derivedTtg d).Io = d.Io ∧ (derivedTtg d).Balances = d.Balances := by
  unfold derivedTtg
  (repeat' split) <;> exact ⟨rfl, rfl, rfl, rfl⟩

theorem applyDerived_pres (d : BatteryData) :
    (applyDerived d).Info = d.Info ∧ (applyDerived d).Alarms = d.Alarms ∧
    (applyDerived d).Io = d.Io ∧ (applyDerived d).Balances = d.Balances := by
  unfold applyDerived
  obtain ⟨h1, h2, h3, h4⟩ := derivedTtg_pres (derivedCapacity (derivedPower d))
  obtain ⟨g1, g2, g3, g4⟩ := derivedCapacity_pres (derivedPower d)
  obtain ⟨f1, f2, f3, f4⟩ := derivedPower_pres d
  exact ⟨by rw [h1, g1, f1], by rw [h2, g2, f2], by rw [h3, g3, f3], by rw [h4, g4, f4]⟩

theorem lookup_mem {l : List (ℕ × Bool)} {n : ℕ} {w : Bool}
    (h : l.lookup n = some w) : (n, w) ∈ l := by
  induction l with
  | nil => simp [List.lookup] at h
  | cons kv t ih =>
    obtain ⟨k, v⟩ := kv
    rw [List.lookup] at h
    cases hk : (n == k) with
    | true =>
      rw [hk] at h
      obtain rfl : n = k := by simpa using hk
      obtain rfl : v = w := Option.some.inj h
      exact List.mem_cons_self _ _
    | false =>
      rw [hk] at h
      exact List.mem_cons_of_mem _ (ih h)

theorem power_keys_singlebit : ∀ p ∈ power_events_list, popCount32 p.1 ≤ 1 := by decide

theorem sys_keys_singlebit : ∀ p ∈ sys_events_list, popCount32 p.1 ≤ 1 := by decide

theorem lookup_multibit_none (tbl : List (ℕ × Bool))
    (hkeys : ∀ p ∈ tbl, popCount32 p.1 ≤ 1) (n : ℕ) (hn : 2 ≤ popCount32 n) :
    tbl.lookup n = none := by
  cases hl : tbl.lookup n with
  | none => rfl
  | some w =>
    have := hkeys (n, w) (lookup_mem hl)
    simp at this
    omega

theorem batEvBlock_pres (d : BatteryData) (be : ℕ) :
    (batEvBlock d be).Info = d.Info ∧ (batEvBlock d be).Io = d.Io ∧
    (batEvBlock d be).Balances = d.Balances ∧
    (batEvBlock d be).Alarms.LowChargeTemperature = d.Alarms.LowChargeTemperature ∧
    (batEvBlock d be).Alarms.HighChargeTemperature = d.Alarms.HighChargeTemperature ∧
    (batEvBlock d be).Alarms.HighCurrent = d.Alarms.HighCurrent ∧
    (batEvBlock d be).Alarms.LowSoc = d.Alarms.LowSoc ∧
    (batEvBlock d be).Alarms.HighVoltage = d.Alarms.HighVoltage ∧
    (batEvBlock d be).Alarms.LowCellVoltage = d.Alarms.LowCellVoltage ∧
    (batEvBlock d be).Alarms.FuseBlown = d.Alarms.FuseBlown ∧
    (batEvBlock d be).Dc = d.Dc := by
  unfold batEvBlock
  (repeat' split) <;> exact ⟨rfl, rfl, rfl, rfl, rfl, rfl, rfl, rfl, rfl, rfl, rfl⟩

theorem powerEvBlock_pres (d : BatteryData) (pe : ℕ) :
    (powerEvBlock d pe).Info = d.Info ∧ (powerEvBlock d pe).Io = d.Io ∧
    (powerEvBlock d pe).Balances = d.Balances ∧
    (powerEvBlock d pe).Alarms.LowChargeTemperature = d.Alarms.LowChargeTemperature ∧
    (powerEvBlock d pe).Alarms.HighChargeTemperature = d.Alarms.HighChargeTemperature ∧
    (powerEvBlock d pe).Alarms.HighCurrent = d.Alarms.HighCurrent ∧
    (powerEvBlock d pe).Alarms.CellImbalance = d.Alarms.CellImbalance ∧
    (powerEvBlock d pe).Dc = d.Dc := by
  unfold powerEvBlock
  by_cases h0 : pe ≠ 0
  case neg => rw [if_neg h0]; exact ⟨rfl, rfl, rfl, rfl, rfl, rfl, rfl, rfl⟩
  case pos =>
  rw [if_pos h0]
  cases hl : power_events_list.lookup pe with
  | none => exact ⟨rfl, rfl, rfl, rfl, rfl, rfl, rfl, rfl⟩
  | some w =>
    dsimp only
    by_cases h1 : pe = 1 ∨ pe = 2
    · rw [if_pos h1]; exact ⟨rfl, rfl, rfl, rfl, rfl, rfl, rfl, rfl⟩
    rw [if_neg h1]
    by_cases h2 : pe = 8
    · rw [if_pos h2]; exact ⟨rfl, rfl, rfl, rfl, rfl, rfl, rfl, rfl⟩
    rw [if_neg h2]
    by_cases h3 : pe = 16
    · rw [if_pos h3]; exact ⟨rfl, rfl, rfl, rfl, rfl, rfl, rfl, rfl⟩
    rw [if_neg h3]
    by_cases h4 : pe = 256 ∨ pe = 512
    · rw [if_pos h4]; exact ⟨rfl, rfl, rfl, rfl, rfl, rfl, rfl, rfl⟩
    rw [if_neg h4]
    by_cases h5 : pe = 2048 ∨ pe = 4096
    · rw [if_pos h5]; exact ⟨rfl, rfl, rfl, rfl, rfl, rfl, rfl, rfl⟩
    rw [if_neg h5]
    by_cases h6 : pe = 32768
    · rw [if_pos h6]; exact ⟨rfl, rfl, rfl, rfl, rfl, rfl, rfl, rfl⟩
    rw [if_neg h6]
    by_cases h7 : pe = 131072 ∨ pe = 524288
    · rw [if_pos h7]; exact ⟨rfl, rfl, rfl, rfl, rfl, rfl, rfl, rfl⟩
    rw [if_neg h7]
    by_cases h8 : pe = 262144 ∨ pe = 1048576
    · rw [if_pos h8]; exact ⟨rfl, rfl, rfl, rfl, rfl, rfl, rfl, rfl⟩
    rw [if_neg h8]
    by_cases h9 : pe = 65536
    · rw [if_pos h9]; exact ⟨rfl, rfl, rfl, rfl, rfl, rfl, rfl, rfl⟩
    rw [if_neg h9]
    exact ⟨rfl, rfl, rfl, rfl, rfl, rfl, rfl, rfl⟩

theorem sysEvBlock_pres (d : BatteryData) (se : ℕ) :
    (sysEvBlock d se).Info = d.Info ∧ (sysEvBlock d se).Io = d.Io ∧
    (sysEvBlock d se).Balances = d.Balances ∧
    (sysEvBlock d se).Alarms.LowChargeTemperature = d.Alarms.LowChargeTemperature ∧
    (sysEvBlock d se).Alarms.HighChargeTemperature = d.Alarms.HighChargeTemperature ∧
    (sysEvBlock d se).Alarms.HighCurrent = d.Alarms.HighCurrent ∧
    (sysEvBlock d se).Alarms.LowSoc = d.Alarms.LowSoc ∧
    (sysEvBlock d se).Alarms.CellImbalance = d.Alarms.CellImbalance ∧
    (sysEvBlock d se).Alarms.HighVoltage = d.Alarms.HighVoltage ∧
    (sysEvBlock d se).Alarms.LowCellVoltage = d.Alarms.LowCellVoltage ∧
    (sysEvBlock d se).Dc = d.Dc := by
  unfold sysEvBlock
  (repeat' split) <;> exact ⟨rfl, rfl, rfl, rfl, rfl, rfl, rfl, rfl, rfl, rfl, rfl⟩

theorem powerEvBlock_LowSoc_one (d : BatteryData) (pe : ℕ)
    (h : d.Alarms.LowSoc = 1) : (powerEvBlock d pe).Alarms.LowSoc = 1 := by
  unfold powerEvBlock
  by_cases h0 : pe ≠ 0
  case neg => rw [if_neg h0]; exact h
  case pos =>
  rw [if_pos h0]
  cases hl : power_events_list.lookup pe with
  | none => exact h
  | some w =>
    dsimp only
    by_cases h1 : pe = 1 ∨ pe = 2
    · rw [if_pos h1]; exact h
    rw [if_neg h1]
    by_cases h2 : pe = 8
    · rw [if_pos h2]; exact h
    rw [if_neg h2]
    by_cases h3 : pe = 16
    · rw [if_pos h3]; exact h
    rw [if_neg h3]
    by_cases h4 : pe = 256 ∨ pe = 512
    · rw [if_pos h4]; exact h
    rw [if_neg h4]
    by_cases h5 : pe = 2048 ∨ pe = 4096
    · rw [if_pos h5]; exact h
    rw [if_neg h5]
    by_cases h6 : pe = 32768
    · rw [if_pos h6]
      subst h6
      have h32 : power_events_list.lookup 32768 = some true := by decide
      rw [h32] at hl
      obtain rfl : w = true := (Option.some.inj hl).symm
      rfl
    rw [if_neg h6]
    by_cases h7 : pe = 131072 ∨ pe = 524288
    · rw [if_pos h7]; exact h
    rw [if_neg h7]
    by_cases h8 : pe = 262144 ∨ pe = 1048576
    · rw [if_pos h8]; exact h
    rw [if_neg h8]
    by_cases h9 : pe = 65536
    · rw [if_pos h9]; exact h
    rw [if_neg h9]
    exact h

theorem batEvBlock_skip (d : BatteryData) (be : ℕ)
    (h : power_events_list.lookup be = none) : batEvBlock d be = d := by
  unfold batEvBlock
  rw [h]
  simp

theorem powerEvBlock_skip (d : BatteryData) (pe : ℕ)
    (h : power_events_list.lookup pe = none) : powerEvBlock d pe = d := by
  unfold powerEvBlock
  rw [h]
  simp

theorem sysEvBlock_skip (d : BatteryData) (se : ℕ)
    (h : sys_events_list.lookup se = none) : sysEvBlock d se = d := by
  unfold sysEvBlock
  rw [h]
  simp

theorem batEvBlock_warn (d : BatteryData) (be : ℕ) (hne : be ≠ 0)
    (h : power_events_list.lookup be = some true) :
    (batEvBlock d be).Alarms.CellImbalance = 1 := by
  unfold batEvBlock
  rw [if_pos hne, h]

theorem sysEvBlock_fuse (d : BatteryData) (se : ℕ) (w : Bool) (hne : se ≠ 0)
    (h : sys_events_list.lookup se = some w) :
    (sysEvBlock d se).Alarms.FuseBlown = max d.Alarms.FuseBlown (severityOf w) := by
  have hmem : (se, w) ∈ sys_events_list := lookup_mem h
  have hk : se = 0 ∨ se ∈ ([1, 2, 4, 8, 16, 32, 64, 128, 256, 512, 1024, 2048] : List ℕ) :=
    (show ∀ p ∈ sys_events_list,
        p.1 = 0 ∨ p.1 ∈ ([1, 2, 4, 8, 16, 32, 64, 128, 256, 512, 1024, 2048] : List ℕ)
      from by decide) _ hmem
  have hse := hk.resolve_left hne
  unfold sysEvBlock
  rw [if_pos hne, h]
  dsimp only
  rw [if_pos hse]

theorem applyEventAlarms_Info (d : BatteryData) (a b c : ℕ) :
    (applyEventAlarms d a b c).Info = d.Info := by
  unfold applyEventAlarms
  rw [(sysEvBlock_pres _ _).1, (powerEvBlock_pres _ _).1, (batEvBlock_pres _ _).1]

theorem applyEventAlarms_Io (d : BatteryData) (a b c : ℕ) :
    (applyEventAlarms d a b c).Io = d.Io := by
  unfold applyEventAlarms
  rw [(sysEvBlock_pres _ _).2.1, (powerEvBlock_pres _ _).2.1, (batEvBlock_pres _ _).2.1]

theorem applyEventAlarms_Balances (d : BatteryData) (a b c : ℕ) :
    (applyEventAlarms d a b c).Balances = d.Balances := by
  unfold applyEventAlarms
  rw [(sysEvBlock_pres _ _).2.2.1, (powerEvBlock_pres _ _).2.2.1,
      (batEvBlock_pres _ _).2.2.1]

theorem applyEventAlarms_LCT (d : BatteryData) (a b c : ℕ) :
    (applyEventAlarms d a b c).Alarms.LowChargeTemperature =
      d.Alarms.LowChargeTemperature := by
  unfold applyEventAlarms
  rw [(sysEvBlock_pres _ _).2.2.2.1, (powerEvBlock_pres _ _).2.2.2.1,
      (batEvBlock_pres _ _).2.2.2.1]

theorem applyEventAlarms_HCT (d : BatteryData) (a b c : ℕ) :
    (applyEventAlarms d a b c).Alarms.HighChargeTemperature =
      d.Alarms.HighChargeTemperature := by
  unfold applyEventAlarms
  rw [(sysEvBlock_pres _ _).2.2.2.2.1, (powerEvBlock_pres _ _).2.2.2.2.1,
      (batEvBlock_pres _ _).2.2.2.2.1]

theorem applyEventAlarms_HighCurrent (d : BatteryData) (a b c : ℕ) :
    (applyEventAlarms d a b c).Alarms.HighCurrent = d.Alarms.HighCurrent := by
  unfold applyEventAlarms
  rw [(sysEvBlock_pres _ _).2.2.2.2.2.1, (powerEvBlock_pres _ _).2.2.2.2.2.1,
      (batEvBlock_pres _ _).2.2.2.2.2.1]

theorem applyEventAlarms_LowSoc_one (d : BatteryData) (a b c : ℕ)
    (h : d.Alarms.LowSoc = 1) : (applyEventAlarms d a b c).Alarms.LowSoc = 1 := by
  unfold applyEventAlarms
  rw [(sysEvBlock_pres _ _).2.2.2.2.2.2.1]
  exact powerEvBlock_LowSoc_one _ _ (by rw [(batEvBlock_pres _ _).2.2.2.2.2.2.1]; exact h)

theorem applyEventAlarms_skip (d : BatteryData) (a b c : ℕ)
    (h1 : power_events_list.lookup a = none)
    (h2 : power_events_list.lookup b = none)
    (h3 : sys_events_list.lookup c = none) : applyEventAlarms d a b c = d := by
  unfold applyEventAlarms
  rw [batEvBlock_skip _ _ h1, powerEvBlock_skip _ _ h2, sysEvBlock_skip _ _ h3]

theorem pyMinBySnd_isSome {α : Type} (l : List (α × ℚ)) (h : l ≠ []) :
    ∃ x, pyMinBySnd l = some x := by
  cases l with
  | nil => exact absurd rfl h
  | cons a t => exact ⟨_, rfl⟩

theorem pyMaxBySnd_isSome {α : Type} (l : List (α × ℚ)) (h : l ≠ []) :
    ∃ x, pyMaxBySnd l = some x := by
  cases l with
  | nil => exact absurd rfl h
  | cons a t => exact ⟨_, rfl⟩

theorem pyMaxBySnd_ne_nil {α : Type} {l : List (α × ℚ)} {x : α × ℚ}
    (h : pyMaxBySnd l = some x) : l ≠ [] := by
  cases l with
  | nil => simp [pyMaxBySnd] at h
  | cons a t => simp

theorem pyMinBySnd_ne_nil {α : Type} {l : List (α × ℚ)} {x : α × ℚ}
    (h : pyMinBySnd l = some x) : l ≠ [] := by
  cases l with
  | nil => simp [pyMinBySnd] at h
  | cons a t => simp

theorem cellVoltPairs_ne_nil {cells : List CellReading} (h : cells ≠ []) :
    cellVoltPairs cells ≠ [] := by
  cases cells with
  | nil => exact absurd rfl h
  | cons a t => simp [cellVoltPairs]

theorem cellTempPairs_ne_nil {cells : List CellReading} (h : cells ≠ []) :
    cellTempPairs cells ≠ [] := by
  cases cells with
  | nil => exact absurd rfl h
  | cons a t => simp [cellTempPairs]

theorem cells_ne_nil_of_volt {cells : List CellReading} {x : String × ℚ}
    (h : pyMaxBySnd (cellVoltPairs cells) = some x) : cells ≠ [] := by
  intro he
  subst he
  simp [cellVoltPairs, pyMaxBySnd] at h

theorem dictInsert_mem {β : Type} (l : List (String × β)) (k : String) (v : β) :
    ∀ p ∈ dictInsert l k v, p.2 = v ∨ p ∈ l := by
  induction l with
  | nil => intro p hp; simp [dictInsert] at hp; subst hp; exact Or.inl rfl
  | cons a t ih =>
    intro p hp
    obtain ⟨k₀, v₀⟩ := a
    unfold dictInsert at hp
    split at hp
    · rcases List.mem_cons.mp hp with h | h
      · subst h; exact Or.inl rfl
      · exact Or.inr (List.mem_cons_of_mem _ h)
    · rcases List.mem_cons.mp hp with h | h
      · subst h; exact Or.inr (List.mem_cons_self _ _)
      · rcases ih p h with h' | h'
        · exact Or.inl h'
        · exact Or.inr (List.mem_cons_of_mem _ h')

theorem foldl_dictInsert_zero (L : List ℕ) (bs : List (String × ℕ))
    (hz : ∀ p ∈ bs, p.2 = 0) :
    ∀ p ∈ L.foldl (fun bs i => dictInsert bs ("Cell" ++ toString i) 0) bs, p.2 = 0 := by
  induction L generalizing bs with
  | nil => exact hz
  | cons i t ih =>
    refine ih _ (fun p hp => ?_)
    rcases dictInsert_mem bs ("Cell" ++ toString i) 0 p hp with h | h
    · exact h
    · exact hz p h

theorem applyCellsVolt_pres (d : BatteryData) (cells : List CellReading) :
    (applyCellsVolt d cells).Info = d.Info ∧ (applyCellsVolt d cells).Io = d.Io ∧
    (applyCellsVolt d cells).Alarms = d.Alarms ∧
    (applyCellsVolt d cells).Balances = d.Balances :=
  ⟨rfl, rfl, rfl, rfl⟩

theorem cellVoltStats_pres (d : BatteryData) (n : ℕ) (mn mx : String × ℚ) :
    (cellVoltStats d n mn mx).Info = d.Info ∧ (cellVoltStats d n mn mx).Io = d.Io ∧
    (cellVoltStats d n mn mx).Alarms = d.Alarms ∧
    (cellVoltStats d n mn mx).Balances = d.Balances :=
  ⟨rfl, rfl, rfl, rfl⟩

theorem cellClampCharge_pres (d : BatteryData) (mx : String × ℚ) :
    (cellClampCharge d mx).Info = d.Info ∧
    (cellClampCharge d mx).Io.AllowToDischarge = d.Io.AllowToDischarge ∧
    (cellClampCharge d mx).Balances = d.Balances ∧
    (cellClampCharge d mx).Alarms.LowCellVoltage = d.Alarms.LowCellVoltage ∧
    (cellClampCharge d mx).Alarms.LowSoc = d.Alarms.LowSoc ∧
    (cellClampCharge d mx).Alarms.LowChargeTemperature = d.Alarms.LowChargeTemperature ∧
    (cellClampCharge d mx).Alarms.HighChargeTemperature = d.Alarms.HighChargeTemperature ∧
    (cellClampCharge d mx).Alarms.CellImbalance = d.Alarms.CellImbalance := by
  unfold cellClampCharge
  (repeat' split) <;> exact ⟨rfl, rfl, rfl, rfl, rfl, rfl, rfl, rfl⟩

theorem cellClampCharge_zero (d : BatteryData) (mx : String × ℚ)
    (h : d.Io.AllowToCharge = 0) : (cellClampCharge d mx).Io.AllowToCharge = 0 := by
  unfold cellClampCharge
  split
  · rfl
  · exact h

theorem cellClampCharge_fire (d : BatteryData) (mx : String × ℚ)
    (h : (3.65 : ℚ) < mx.2) :
    (cellClampCharge d mx).Io.AllowToCharge = 0 ∧
    (cellClampCharge d mx).Alarms.HighVoltage = 1 := by
  unfold cellClampCharge
  rw [if_pos h]
  exact ⟨rfl, rfl⟩

theorem cellClampDischarge_pres (d : BatteryData) (mn : String × ℚ) :
    (cellClampDischarge d mn).Info = d.Info ∧
    (cellClampDischarge d mn).Io.AllowToCharge = d.Io.AllowToCharge ∧
    (cellClampDischarge d mn).Balances = d.Balances ∧
    (cellClampDischarge d mn).Alarms.HighVoltage = d.Alarms.HighVoltage ∧
    (cellClampDischarge d mn).Alarms.LowSoc = d.Alarms.LowSoc ∧
    (cellClampDischarge d mn).Alarms.LowChargeTemperature = d.Alarms.LowChargeTemperature ∧
    (cellClampDischarge d mn).Alarms.HighChargeTemperature = d.Alarms.HighChargeTemperature ∧
    (cellClampDischarge d mn).Alarms.CellImbalance = d.Alarms.CellImbalance := by
  unfold cellClampDischarge
  (repeat' split) <;> exact ⟨rfl, rfl, rfl, rfl, rfl, rfl, rfl, rfl⟩

theorem cellClampDischarge_zero (d : BatteryData) (mn : String × ℚ)
    (h : d.Io.AllowToDischarge = 0) :
    (cellClampDischarge d mn).Io.AllowToDischarge = 0 := by
  unfold cellClampDischarge
  split
  · rfl
  · exact h

theorem cellClampDischarge_fire (d : BatteryData) (mn : String × ℚ)
    (h : mn.2 < (2.5 : ℚ)) :
    (cellClampDischarge d mn).Io.AllowToDischarge = 0 ∧
    (cellClampDischarge d mn).Alarms.LowCellVoltage = 1 := by
  unfold cellClampDischarge
  rw [if_pos h]
  exact ⟨rfl, rfl⟩

theorem cellBalance_pres (d : BatteryData) (n : ℕ) (mn mx : String × ℚ) :
    (cellBalance d n mn mx).Info = d.Info ∧ (cellBalance d n mn mx).Io = d.Io ∧
    (cellBalance d n mn mx).Alarms = d.Alarms := by
  unfold cellBalance
  (repeat' split) <;> exact ⟨rfl, rfl, rfl⟩

theorem cellBalance_then (d : BatteryData) (n : ℕ) (mn mx : String × ℚ)
    (h : 0.05 < mx.2 - mn.2 ∧ 3.4 < mx.2) :
    (cellBalance d n mn mx).Balances = dictInsert d.Balances ("Cell" ++ mx.1.drop 1) 1 := by
  unfold cellBalance
  rw [if_pos h]

theorem cellBalance_else (d : BatteryData) (n : ℕ) (mn mx : String × ℚ)
    (h : ¬ (0.05 < mx.2 - mn.2 ∧ 3.4 < mx.2)) :
    (cellBalance d n mn mx).Balances =
      (List.range' 1 n).foldl (fun bs i => dictInsert bs ("Cell" ++ toString i) 0)
        d.Balances := by
  unfold cellBalance
  rw [if_neg h]

theorem cellImbalanceAlarm_pres (d : BatteryData) (mn mx : String × ℚ) :
    (cellImbalanceAlarm d mn mx).Info = d.Info ∧
    (cellImbalanceAlarm d mn mx).Io = d.Io ∧
    (cellImbalanceAlarm d mn mx).Balances = d.Balances ∧
    (cellImbalanceAlarm d mn mx).Alarms.HighVoltage = d.Alarms.HighVoltage ∧
    (cellImbalanceAlarm d mn mx).Alarms.LowCellVoltage = d.Alarms.LowCellVoltage ∧
    (cellImbalanceAlarm d mn mx).Alarms.LowSoc = d.Alarms.LowSoc ∧
    (cellImbalanceAlarm d mn mx).Alarms.LowChargeTemperature =
      d.Alarms.LowChargeTemperature ∧
    (cellImbalanceAlarm d mn mx).Alarms.HighChargeTemperature =
      d.Alarms.HighChargeTemperature := by
  unfold cellImbalanceAlarm
  (repeat' split) <;> exact ⟨rfl, rfl, rfl, rfl, rfl, rfl, rfl, rfl⟩

theorem cellTempStats_pres (d : BatteryData) (tmn tmx : String × ℚ) :
    (cellTempStats d tmn tmx).Info = d.Info ∧ (cellTempStats d tmn tmx).Io = d.Io ∧
    (cellTempStats d tmn tmx).Alarms = d.Alarms ∧
    (cellTempStats d tmn tmx).Balances = d.Balances :=
  ⟨rfl, rfl, rfl, rfl⟩

theorem cellTempAlarms_pres (d : BatteryData) (tmn tmx : String × ℚ) :
    (cellTempAlarms d tmn tmx).Info = d.Info ∧
    (cellTempAlarms d tmn tmx).Io = d.Io ∧
    (cellTempAlarms d tmn tmx).Balances = d.Balances ∧
    (cellTempAlarms d tmn tmx).Alarms.HighVoltage = d.Alarms.HighVoltage ∧
    (cellTempAlarms d tmn tmx).Alarms.LowCellVoltage = d.Alarms.LowCellVoltage ∧
    (cellTempAlarms d tmn tmx).Alarms.LowSoc = d.Alarms.LowSoc ∧
    (cellTempAlarms d tmn tmx).Alarms.LowChargeTemperature =
      d.Alarms.LowChargeTemperature ∧
    (cellTempAlarms d tmn tmx).Alarms.HighChargeTemperature =
      d.Alarms.HighChargeTemperature := by
  unfold cellTempAlarms
  (repeat' split) <;> exact ⟨rfl, rfl, rfl, rfl, rfl, rfl, rfl, rfl⟩

theorem applyCells_Info (d : BatteryData) (cells : List CellReading) :
    (applyCells d cells).Info = d.Info := by
  cases cells with
  | nil => rfl
  | cons c cs =>
    unfold applyCells
    dsimp only [cellVoltPairs, cellTempPairs, List.map, pyMinBySnd, pyMaxBySnd]
    rw [(cellTempAlarms_pres _ _ _).1, (cellTempStats_pres _ _ _).1,
        (cellImbalanceAlarm_pres _ _ _).1, (cellBalance_pres _ _ _ _).1,
        (cellClampDischarge_pres _ _).1, (cellClampCharge_pres _ _).1,
        (cellVoltStats_pres _ _ _ _).1, (applyCellsVolt_pres _ _).1]

theorem applyCells_LCT (d : BatteryData) (cells : List CellReading) :
    (applyCells d cells).Alarms.LowChargeTemperature =
      d.Alarms.LowChargeTemperature := by
  cases cells with
  | nil => rfl
  | cons c cs =>
    unfold applyCells
    dsimp only [cellVoltPairs, cellTempPairs, List.map, pyMinBySnd, pyMaxBySnd]
    rw [(cellTempAlarms_pres _ _ _).2.2.2.2.2.2.1, (cellTempStats_pres _ _ _).2.2.1,
        (cellImbalanceAlarm_pres _ _ _).2.2.2.2.2.2.1,
        (cellBalance_pres _ _ _ _).2.2, (cellClampDischarge_pres _ _).2.2.2.2.2.1,
        (cellClampCharge_pres _ _).2.2.2.2.2.1, (cellVoltStats_pres _ _ _ _).2.2.1,
        (applyCellsVolt_pres _ _).2.2.1]

theorem applyCells_HCT (d : BatteryData) (cells : List CellReading) :
    (applyCells d cells).Alarms.HighChargeTemperature =
      d.Alarms.HighChargeTemperature := by
  cases cells with
  | nil => rfl
  | cons c cs =>
    unfold applyCells
    dsimp only [cellVoltPairs, cellTempPairs, List.map, pyMinBySnd, pyMaxBySnd]
    rw [(cellTempAlarms_pres _ _ _).2.2.2.2.2.2.2, (cellTempStats_pres _ _ _).2.2.1,
        (cellImbalanceAlarm_pres _ _ _).2.2.2.2.2.2.2,
        (cellBalance_pres _ _ _ _).2.2, (cellClampDischarge_pres _ _).2.2.2.2.2.2.1,
        (cellClampCharge_pres _ _).2.2.2.2.2.2.1, (cellVoltStats_pres _ _ _ _).2.2.1,
        (applyCellsVolt_pres _ _).2.2.1]

theorem applyCells_LowSoc (d : BatteryData) (cells : List CellReading) :
    (applyCells d cells).Alarms.LowSoc = d.Alarms.LowSoc := by
  cases cells with
  | nil => rfl
  | cons c cs =>
    unfold applyCells
    dsimp only [cellVoltPairs, cellTempPairs, List.map, pyMinBySnd, pyMaxBySnd]
    rw [(cellTempAlarms_pres _ _ _).2.2.2.2.2.1, (cellTempStats_pres _ _ _).2.2.1,
        (cellImbalanceAlarm_pres _ _ _).2.2.2.2.2.1,
        (cellBalance_pres _ _ _ _).2.2, (cellClampDischarge_pres _ _).2.2.2.2.1,
        (cellClampCharge_pres _ _).2.2.2.2.1, (cellVoltStats_pres _ _ _ _).2.2.1,
        (applyCellsVolt_pres _ _).2.2.1]

theorem applyCells_chargeZero (d : BatteryData) (cells : List CellReading)
    (h : d.Io.AllowToCharge = 0) : (applyCells d cells).Io.AllowToCharge = 0 := by
  cases cells with
  | nil => exact h
  | cons c cs =>
    unfold applyCells
    dsimp only [cellVoltPairs, cellTempPairs, List.map, pyMinBySnd, pyMaxBySnd]
    rw [(cellTempAlarms_pres _ _ _).2.1, (cellTempStats_pres _ _ _).2.1,
        (cellImbalanceAlarm_pres _ _ _).2.1, (cellBalance_pres _ _ _ _).2.1,
        (cellClampDischarge_pres _ _).2.1]
    exact cellClampCharge_zero _ _ (by
      rw [(cellVoltStats_pres _ _ _ _).2.1, (applyCellsVolt_pres _ _).2.1]
      exact h)

theorem applyCells_dischargeZero (d : BatteryData) (cells : List CellReading)
    (h : d.Io.AllowToDischarge = 0) : (applyCells d cells).Io.AllowToDischarge = 0 := by
  cases cells with
  | nil => exact h
  | cons c cs =>
    unfold applyCells
    dsimp only [cellVoltPairs, cellTempPairs, List.map, pyMinBySnd, pyMaxBySnd]
    rw [(cellTempAlarms_pres _ _ _).2.1, (cellTempStats_pres _ _ _).2.1,
        (cellImbalanceAlarm_pres _ _ _).2.1, (cellBalance_pres _ _ _ _).2.1]
    exact cellClampDischarge_zero _ _ (by
      rw [(cellClampCharge_pres _ _).2.1, (cellVoltStats_pres _ _ _ _).2.1,
          (applyCellsVolt_pres _ _).2.1]
      exact h)

theorem applyCells_clampCharge (d : BatteryData) (cells : List CellReading)
    (mx : String × ℚ) (hmx : pyMaxBySnd (cellVoltPairs cells) = some mx)
    (hv : (3.65 : ℚ) < mx.2) :
    (applyCells d cells).Io.AllowToCharge = 0 ∧
    (applyCells d cells).Alarms.HighVoltage = 1 := by
  have hcne : cells ≠ [] := cells_ne_nil_of_volt hmx
  obtain ⟨mn, hmn⟩ := pyMinBySnd_isSome _ (cellVoltPairs_ne_nil hcne)
  obtain ⟨tmn, h3⟩ := pyMinBySnd_isSome _ (cellTempPairs_ne_nil hcne)
  obtain ⟨tmx, h4⟩ := pyMaxBySnd_isSome _ (cellTempPairs_ne_nil hcne)
  unfold applyCells
  rw [hmn, hmx, h3, h4]
  dsimp only
  constructor
  · rw [(cellTempAlarms_pres _ _ _).2.1, (cellTempStats_pres _ _ _).2.1,
        (cellImbalanceAlarm_pres _ _ _).2.1, (cellBalance_pres _ _ _ _).2.1,
        (cellClampDischarge_pres _ _).2.1]
    exact (cellClampCharge_fire _ _ hv).1
  · rw [(cellTempAlarms_pres _ _ _).2.2.2.1, (cellTempStats_pres _ _ _).2.2.1,
        (cellImbalanceAlarm_pres _ _ _).2.2.2.1, (cellBalance_pres _ _ _ _).2.2,
        (cellClampDischarge_pres _ _).2.2.2.1]
    exact (cellClampCharge_fire _ _ hv).2

theorem applyCells_clampDischarge (d : BatteryData) (cells : List CellReading)
    (mn : String × ℚ) (hmn : pyMinBySnd (cellVoltPairs cells) = some mn)
    (hv : mn.2 < (2.5 : ℚ)) :
    (applyCells d cells).Io.AllowToDischarge = 0 ∧
    (applyCells d cells).Alarms.LowCellVoltage = 1 := by
  have hcne : cells ≠ [] := by
    intro he
    subst he
    simp [cellVoltPairs, pyMinBySnd] at hmn
  obtain ⟨mx, hmx⟩ := pyMaxBySnd_isSome _ (cellVoltPairs_ne_nil hcne)
  obtain ⟨tmn, h3⟩ := pyMinBySnd_isSome _ (cellTempPairs_ne_nil hcne)
  obtain ⟨tmx, h4⟩ := pyMaxBySnd_isSome _ (cellTempPairs_ne_nil hcne)
  unfold applyCells
  rw [hmn, hmx, h3, h4]
  dsimp only
  constructor
  · rw [(cellTempAlarms_pres _ _ _).2.1, (cellTempStats_pres _ _ _).2.1,
        (cellImbalanceAlarm_pres _ _ _).2.1, (cellBalance_pres _ _ _ _).2.1]
    exact (cellClampDischarge_fire _ _ hv).1
  · rw [(cellTempAlarms_pres _ _ _).2.2.2.2.1, (cellTempStats_pres _ _ _).2.2.1,
        (cellImbalanceAlarm_pres _ _ _).2.2.2.2.1, (cellBalance_pres _ _ _ _).2.2]
    exact (cellClampDischarge_fire _ _ hv).2

theorem applyCells_balances (d : BatteryData) (cells : List CellReading)
    (mn mx : String × ℚ) (hmn : pyMinBySnd (cellVoltPairs cells) = some mn)
    (hmx : pyMaxBySnd (cellVoltPairs cells) = some mx) (hB : d.Balances = []) :
    ((0.05 < mx.2 - mn.2 ∧ 3.4 < mx.2) →
      (applyCells d cells).Balances = [("Cell" ++ mx.1.drop 1, 1)])
    ∧ (¬ (0.05 < mx.2 - mn.2 ∧ 3.4 < mx.2) →
      ∀ p ∈ (applyCells d cells).Balances, p.2 = 0) := by
  have hcne : cells ≠ [] := cells_ne_nil_of_volt hmx
  obtain ⟨tmn, h3⟩ := pyMinBySnd_isSome _ (cellTempPairs_ne_nil hcne)
  obtain ⟨tmx, h4⟩ := pyMaxBySnd_isSome _ (cellTempPairs_ne_nil hcne)
  have hXB : (cellClampDischarge (cellClampCharge
      (cellVoltStats (applyCellsVolt d cells) (cellVoltPairs cells).length mn mx) mx)
      mn).Balances = [] := by
    rw [(cellClampDischarge_pres _ _).2.2.1, (cellClampCharge_pres _ _).2.2.1,
        (cellVoltStats_pres _ _ _ _).2.2.2, (applyCellsVolt_pres _ _).2.2.2]
    exact hB
  unfold applyCells
  rw [hmn, hmx, h3, h4]
  dsimp only
  constructor
  · intro hc
    rw [(cellTempAlarms_pres _ _ _).2.2.1, (cellTempStats_pres _ _ _).2.2.2,
        (cellImbalanceAlarm_pres _ _ _).2.2.1, cellBalance_then _ _ _ _ hc, hXB]
    rfl
  · intro hc p hp
    rw [(cellTempAlarms_pres _ _ _).2.2.1, (cellTempStats_pres _ _ _).2.2.2,
        (cellImbalanceAlarm_pres _ _ _).2.2.1, cellBalance_else _ _ _ _ hc, hXB] at hp
    exact foldl_dictInsert_zero _ [] (by intro q hq; simp at hq) p hp

theorem serial_write_allFalse (c : ℕ) (outcomes : List Bool)
    (hall : ∀ b ∈ outcomes, b = false) :
    serial_write c outcomes = (false, c + outcomes.length) := by
  induction outcomes generalizing c with
  | nil => rfl
  | cons b t ih =>
    have hb : b = false := hall b (List.mem_cons_self b t)
    subst hb
    rw [show serial_write c (false :: t) = serial_write (c + 1) t from rfl,
        ih (c + 1) (fun x hx => hall x (List.mem_cons_of_mem _ hx))]
    simp only [List.length_cons, Prod.mk.injEq, true_and]
    omega

theorem serial_write_success (c : ℕ) (outcomes : List Bool)
    (h : (serial_write c outcomes).1 = true) : (serial_write c outcomes).2 = 0 := by
  induction outcomes generalizing c with
  | nil => simp [serial_write] at h
  | cons b t ih =>
    cases b with
    | true => rfl
    | false => exact ih (c + 1) h

theorem readCounter_timeout_iterate (lines : List String) (n c : ℕ) :
    (fun x => readCounter x (.timedOut lines))^[n] c = c + n := by
  induction n generalizing c with
  | zero => simp
  | succ k ih =>
    rw [Function.iterate_succ_apply, ih]
    simp [readCounter]
    omega

theorem runCycle_gate (g : Config) (c : ℕ) (f : ℕ → Option BatteryData) (m : Bool)
    (h : MAX_CONSECUTIVE_FAILURES ≤ c) : runCycle g c f m = .exitThreshold := by
  unfold runCycle mainLoopGate
  simp [h]

/-! Claims C5 and C6: the failure tracker and the serial reader. -/

/-- C5: the failure counter is incremented by any write exhaustion, read
exception or read timeout, and reset to zero by any successful write or
completed read; after 10 consecutive read timeouts with no intervening
success the main loop exits through the threshold path, while a single
success resets the counter to 0. -/
theorem failure_counter_contract (c : ℕ) (outcomes : List Bool) (lines : List String)
    (g : Config) (f : ℕ → Option BatteryData) (m : Bool) :
    ((∀ b ∈ outcomes, b = false) → outcomes ≠ [] →
      c < (serial_write c outcomes).2 ∧ (serial_write c outcomes).1 = false)
    ∧ ((serial_write c outcomes).1 = true → (serial_write c outcomes).2 = 0)
    ∧ readCounter c .errored = c + 1
    ∧ readCounter c (.timedOut lines) = c + 1
    ∧ readCounter c (.completed lines) = 0
    ∧ (fun x => readCounter x (.timedOut lines))^[10] c = c + 10
    ∧ runCycle g ((fun x => readCounter x (.timedOut lines))^[10] c) f m =
        .exitThreshold := by
  refine ⟨?_, serial_write_success c outcomes, rfl, rfl, rfl,
          readCounter_timeout_iterate lines 10 c, ?_⟩
  · intro hall hne
    rw [serial_write_allFalse c outcomes hall]
    refine ⟨?_, rfl⟩
    have : outcomes.length ≠ 0 := fun h => hne (List.length_eq_zero.mp h)
    omega
  · rw [readCounter_timeout_iterate lines 10 c]
    exact runCycle_gate g (c + 10) f m (by unfold MAX_CONSECUTIVE_FAILURES; omega)

/-- Witness for C5 at concrete inputs. -/
theorem failure_counter_contract_witness :
    (3 < (serial_write 3 [false, false]).2 ∧ (serial_write 3 [false, false]).1 = false)
    ∧ (serial_write 0 [true]).2 = 0
    ∧ readCounter 4 .errored = 5
    ∧ readCounter 4 (.timedOut []) = 5
    ∧ readCounter 4 (.completed []) = 0
    ∧ runCycle cfgA ((fun x => readCounter x (.timedOut ([] : List String)))^[10] 0)
        (fun _ => none) true = .exitThreshold :=
  ⟨(failure_counter_contract 3 [false, false] [] cfgA (fun _ => none) true).1
      (by decide) (by decide),
   (failure_counter_contract 0 [true] [] cfgA (fun _ => none) true).2.1 rfl,
   (failure_counter_contract 4 [] [] cfgA (fun _ => none) true).2.2.1,
   (failure_counter_contract 4 [] [] cfgA (fun _ => none) true).2.2.2.1,
   (failure_counter_contract 4 [] [] cfgA (fun _ => none) true).2.2.2.2.1,
   (failure_counter_contract 0 [] [] cfgA (fun _ => none) true).2.2.2.2.2.2⟩

/-- C6: the reader returns the collected lines as soon as a line containing
the stop marker arrives after the start condition, ignoring any later
events; an elapsed timeout returns whatever lines were collected so far and
increments the failure counter; an exception returns an empty list and
increments the failure counter. -/
theorem serial_read_contract (startMarker stopMarker s : String) (started : Bool)
    (acc : List String) (rest : List SerialEv) (c : ℕ) :
    ((started || startMarker == "none" || containsSub s startMarker) = true →
      containsSub s stopMarker = true →
      serial_read_go startMarker stopMarker started acc (.recv s :: rest) =
        some (.completed (acc ++ [s]))
      ∧ readCounter c (.completed (acc ++ [s])) = 0)
    ∧ (serial_read_go startMarker stopMarker started acc (.timeoutEv :: rest) =
        some (.timedOut acc)
       ∧ readLines (.timedOut acc) = acc
       ∧ readCounter c (.timedOut acc) = c + 1)
    ∧ (serial_read_go startMarker stopMarker started acc (.excEv :: rest) = some .errored
       ∧ readLines .errored = ([] : List String)
       ∧ readCounter c .errored = c + 1) := by
  refine ⟨?_, ⟨rfl, rfl, rfl⟩, ⟨rfl, rfl, rfl⟩⟩
  intro h1 h2
  refine ⟨?_, rfl⟩
  unfold serial_read_go
  simp [h1, h2]

/-- Witness for C6 at concrete inputs. -/
theorem serial_read_contract_witness :
    (serial_read_go c6start c6stop true [c6lineA] [.recv c6lineStop, .recv c6lineX] =
        some (.completed [c6lineA, c6lineStop])
      ∧ readCounter 4 (.completed [c6lineA, c6lineStop]) = 0)
    ∧ (serial_read_go c6start c6stop true [c6lineA] [.timeoutEv] =
        some (.timedOut [c6lineA])
       ∧ readLines (.timedOut [c6lineA]) = [c6lineA]
       ∧ readCounter 4 (.timedOut [c6lineA]) = 5)
    ∧ (serial_read_go c6start c6stop true [c6lineA] [.excEv] = some .errored
       ∧ readLines .errored = ([] : List String)
       ∧ readCounter 4 .errored = 5) :=
  ⟨(serial_read_contract c6start c6stop c6lineStop true [c6lineA] [.recv c6lineX] 4).1
      (by decide) (by decide),
   (serial_read_contract c6start c6stop c6lineStop true [c6lineA] [] 4).2.1,
   (serial_read_contract c6start c6stop c6lineStop true [c6lineA] [] 4).2.2⟩

/-! Claims C1 to C4: the per-unit policy engine. -/

theorem parse_clamp_stage (g : Config) (p : PwrFields) (cells : List CellReading) :
    (parse_battery_data g p cells).Info.MaxChargeCurrent =
      (applyTempClamp (applyChargeCurrent g (applyChargeVoltage
        (applyPwrFields (initData g) p)))).Info.MaxChargeCurrent
    ∧ (parse_battery_data g p cells).Alarms.LowChargeTemperature =
      (applyTempClamp (applyChargeCurrent g (applyChargeVoltage
        (applyPwrFields (initData g) p)))).Alarms.LowChargeTemperature
    ∧ (parse_battery_data g p cells).Alarms.HighChargeTemperature =
      (applyTempClamp (applyChargeCurrent g (applyChargeVoltage
        (applyPwrFields (initData g) p)))).Alarms.HighChargeTemperature
    ∧ ((applyTempClamp (applyChargeCurrent g (applyChargeVoltage
        (applyPwrFields (initData g) p)))).Io.AllowToCharge = 0 →
      (parse_battery_data g p cells).Io.AllowToCharge = 0) := by
  refine ⟨?_, ?_, ?_, ?_⟩
  · show (applyCells (preCells g p) cells).Info.MaxChargeCurrent = _
    rw [applyCells_Info]
    unfold preCells
    rw [applyEventAlarms_Info, (applyDerived_pres _).1, (applyDischargeLimits_pres _).1]
  · show (applyCells (preCells g p) cells).Alarms.LowChargeTemperature = _
    rw [applyCells_LCT]
    unfold preCells
    rw [applyEventAlarms_LCT, (applyDerived_pres _).2.1,
        (applyDischargeLimits_pres _).2.2.1]
  · show (applyCells (preCells g p) cells).Alarms.HighChargeTemperature = _
    rw [applyCells_HCT]
    unfold preCells
    rw [applyEventAlarms_HCT, (applyDerived_pres _).2.1,
        (applyDischargeLimits_pres _).2.2.2.1]
  · intro h
    show (applyCells (preCells g p) cells).Io.AllowToCharge = 0
    apply applyCells_chargeZero
    unfold preCells
    rw [applyEventAlarms_Io, (applyDerived_pres _).2.2.1,
        (applyDischargeLimits_pres _).2.1]
    exact h

theorem pre_clamp_facts (g : Config) (p : PwrFields) (soc : ℤ) (tRaw : ℚ)
    (hs : p.Coulomb = some soc) (ht : p.Temperature = some tRaw) :
    (applyChargeCurrent g (applyChargeVoltage
        (applyPwrFields (initData g) p))).Dc.Temperature =
      some (pyRound (tRaw / 1000) 1)
    ∧ (applyChargeCurrent g (applyChargeVoltage
        (applyPwrFields (initData g) p))).Info.MaxChargeCurrent = chargeBase g soc
    ∧ (applyChargeCurrent g (applyChargeVoltage
        (applyPwrFields (initData g) p))).Alarms.LowChargeTemperature = 0
    ∧ (applyChargeCurrent g (applyChargeVoltage
        (applyPwrFields (initData g) p))).Alarms.HighChargeTemperature = 0 := by
  have h1Soc : (applyChargeVoltage (applyPwrFields (initData g) p)).Soc = some soc := by
    rw [(applyChargeVoltage_pres _).2.2.2.1]
    exact applyPwrFields_Soc _ _ _ hs
  have hAl : (applyChargeCurrent g (applyChargeVoltage
      (applyPwrFields (initData g) p))).Alarms = (initData g).Alarms := by
    rw [(applyChargeCurrent_pres _ _).2.1, (applyChargeVoltage_pres _).2.1,
        applyPwrFields_Alarms]
  refine ⟨?_, ?_, ?_, ?_⟩
  · rw [(applyChargeCurrent_pres _ _).1, (applyChargeVoltage_pres _).1]
    exact applyPwrFields_Temp _ _ _ ht
  · rw [applyChargeCurrent_MCC g _ soc h1Soc]
    rfl
  · rw [hAl]; rfl
  · rw [hAl]; rfl

/-- C2 amended: with Soc and temperature decoded, the charge-current base is
7.0 A above 90 percent SoC and otherwise 0.8 times the learned fleet limit
rounded to one decimal; temperature below 0 forces limit 0, blocks charging
and raises LowChargeTemperature; temperature in [0, 5) caps the limit at
min(base, 10); temperature above 45 caps it at min(base, 10) and raises
HighChargeTemperature; at 20 degrees neither clamp fires. -/
theorem charge_current_policy (g : Config) (p : PwrFields) (cells : List CellReading)
    (soc : ℤ) (tRaw : ℚ) (hs : p.Coulomb = some soc) (ht : p.Temperature = some tRaw) :
    (pyRound (tRaw / 1000) 1 < 0 →
      (parse_battery_data g p cells).Info.MaxChargeCurrent = 0
      ∧ (parse_battery_data g p cells).Io.AllowToCharge = 0
      ∧ (parse_battery_data g p cells).Alarms.LowChargeTemperature = 1)
    ∧ (0 ≤ pyRound (tRaw / 1000) 1 ∧ pyRound (tRaw / 1000) 1 < 5 →
      (parse_battery_data g p cells).Info.MaxChargeCurrent = min (chargeBase g soc) 10)
    ∧ (45 < pyRound (tRaw / 1000) 1 →
      (parse_battery_data g p cells).Info.MaxChargeCurrent = min (chargeBase g soc) 10
      ∧ (parse_battery_data g p cells).Alarms.HighChargeTemperature = 1)
    ∧ (pyRound (tRaw / 1000) 1 = 20 →
      (parse_battery_data g p cells).Info.MaxChargeCurrent = chargeBase g soc
      ∧ (parse_battery_data g p cells).Alarms.LowChargeTemperature = 0
      ∧ (parse_battery_data g p cells).Alarms.HighChargeTemperature = 0) := by
  obtain ⟨hMCC, hLCT, hHCT, hATC⟩ := parse_clamp_stage g p cells
  obtain ⟨h2T, h2MCC, h2LCT, h2HCT⟩ := pre_clamp_facts g p soc tRaw hs ht
  refine ⟨?_, ?_, ?_, ?_⟩
  · intro hcold
    obtain ⟨hm, ha, hl⟩ := applyTempClamp_cold _ _ h2T hcold
    exact ⟨by rw [hMCC, hm], hATC ha, by rw [hLCT, hl]⟩
  · intro ⟨hge, hlt⟩
    obtain ⟨hm, _, _⟩ := applyTempClamp_cool _ _ h2T hge hlt
    rw [hMCC, hm, h2MCC]
  · intro hhot
    obtain ⟨hm, hh, _, _⟩ := applyTempClamp_hot _ _ h2T hhot
    exact ⟨by rw [hMCC, hm, h2MCC], by rw [hHCT, hh]⟩
  · intro h20
    rw [h20] at h2T
    have hmild := applyTempClamp_mild _ _ h2T (by norm_num) (by norm_num) (by norm_num)
    refine ⟨?_, ?_, ?_⟩
    · rw [hMCC, hmild, h2MCC]
    · rw [hLCT, hmild, h2LCT]
    · rw [hHCT, hmild, h2HCT]

/-- Witness for the amended C2 at concrete inputs. -/
theorem charge_current_policy_witness :
    ((parse_battery_data cfgA pwrSoc50Tneg []).Info.MaxChargeCurrent = 0
      ∧ (parse_battery_data cfgA pwrSoc50Tneg []).Io.AllowToCharge = 0
      ∧ (parse_battery_data cfgA pwrSoc50Tneg []).Alarms.LowChargeTemperature = 1)
    ∧ ((parse_battery_data cfgA pwrSoc50T20 []).Info.MaxChargeCurrent = chargeBase cfgA 50
      ∧ (parse_battery_data cfgA pwrSoc50T20 []).Alarms.LowChargeTemperature = 0
      ∧ (parse_battery_data cfgA pwrSoc50T20 []).Alarms.HighChargeTemperature = 0) :=
  ⟨(charge_current_policy cfgA pwrSoc50Tneg [] 50 (-1000) rfl rfl).1 (by with_unfolding_all decide),
   (charge_current_policy cfgA pwrSoc50T20 [] 50 20000 rfl rfl).2.2.2 (by with_unfolding_all decide)⟩

/-- Counterexample to C2 as frozen: with learned fleet limit 49.9 A and
Soc = 50, the record carries round(0.8 * 49.9, 1) = 39.9 A, not
0.8 * 49.9 = 39.92 A. -/
theorem charge_current_claim_counterexample :
    (parse_battery_data cfgLearned pwrSoc50T20 []).Info.MaxChargeCurrent = 399/10
    ∧ (0.8 : ℚ) * (499/10) ≠ 399/10 := by with_unfolding_all decide

/-- C1 amended: a parsed cell voltage above 3.65 V forces AllowToCharge = 0
and HighVoltage = 1; the record MaxChargeCurrent is left at the value it
would have without the bat section (the clamp does not zero it). -/
theorem cell_voltage_clamp (g : Config) (p : PwrFields) (cells : List CellReading)
    (mx : String × ℚ) (hmx : pyMaxBySnd (cellVoltPairs cells) = some mx)
    (hv : (3.65 : ℚ) < mx.2) :
    (parse_battery_data g p cells).Io.AllowToCharge = 0
    ∧ (parse_battery_data g p cells).Alarms.HighVoltage = 1
    ∧ (parse_battery_data g p cells).Info.MaxChargeCurrent =
        (parse_battery_data g p []).Info.MaxChargeCurrent := by
  obtain ⟨h1, h2⟩ := applyCells_clampCharge (preCells g p) cells mx hmx hv
  refine ⟨h1, h2, ?_⟩
  show (applyCells (preCells g p) cells).Info.MaxChargeCurrent =
    (applyCells (preCells g p) []).Info.MaxChargeCurrent
  rw [applyCells_Info, applyCells_Info]

/-- Witness for the amended C1 at concrete inputs. -/
theorem cell_voltage_clamp_witness :
    (parse_battery_data cfgA {} ceC1cells).Io.AllowToCharge = 0
    ∧ (parse_battery_data cfgA {} ceC1cells).Alarms.HighVoltage = 1
    ∧ (parse_battery_data cfgA {} ceC1cells).Info.MaxChargeCurrent =
        (parse_battery_data cfgA {} []).Info.MaxChargeCurrent :=
  cell_voltage_clamp cfgA {} ceC1cells ("C1", 37/10) (by with_unfolding_all decide) (by with_unfolding_all decide)

/-- Counterexample to C1 as frozen: a unit with one parsed cell at 3.70 V
gets AllowToCharge = 0 and HighVoltage = 1, but its MaxChargeCurrent stays
at the learned 50 A instead of the claimed 0. -/
theorem cell_voltage_claim_counterexample :
    pyMaxBySnd (cellVoltPairs ceC1cells) = some ("C1", 37/10)
    ∧ (3.65 : ℚ) < 37/10
    ∧ (parse_battery_data cfgA {} ceC1cells).Io.AllowToCharge = 0
    ∧ (parse_battery_data cfgA {} ceC1cells).Alarms.HighVoltage = 1
    ∧ (parse_battery_data cfgA {} ceC1cells).Info.MaxChargeCurrent = 50
    ∧ (50 : ℚ) ≠ 0 := by with_unfolding_all decide

theorem parse_discharge_stage (g : Config) (p : PwrFields) (cells : List CellReading) :
    (parse_battery_data g p cells).Info.MaxDischargeCurrent =
      (applyDischargeLimits (applyTempClamp (applyChargeCurrent g (applyChargeVoltage
        (applyPwrFields (initData g) p))))).Info.MaxDischargeCurrent
    ∧ ((applyDischargeLimits (applyTempClamp (applyChargeCurrent g (applyChargeVoltage
        (applyPwrFields (initData g) p))))).Alarms.LowSoc = 1 →
      (parse_battery_data g p cells).Alarms.LowSoc = 1)
    ∧ ((applyDischargeLimits (applyTempClamp (applyChargeCurrent g (applyChargeVoltage
        (applyPwrFields (initData g) p))))).Io.AllowToDischarge = 0 →
      (parse_battery_data g p cells).Io.AllowToDischarge = 0) := by
  refine ⟨?_, ?_, ?_⟩
  · show (applyCells (preCells g p) cells).Info.MaxDischargeCurrent = _
    rw [applyCells_Info]
    unfold preCells
    rw [applyEventAlarms_Info, (applyDerived_pres _).1]
  · intro h
    show (applyCells (preCells g p) cells).Alarms.LowSoc = 1
    rw [applyCells_LowSoc]
    unfold preCells
    apply applyEventAlarms_LowSoc_one
    rw [(applyDerived_pres _).2.1]
    exact h
  · intro h
    show (applyCells (preCells g p) cells).Io.AllowToDischarge = 0
    apply applyCells_dischargeZero
    unfold preCells
    rw [applyEventAlarms_Io, (applyDerived_pres _).2.2.1]
    exact h

theorem pre_discharge_facts (g : Config) (p : PwrFields) (soc : ℤ)
    (hs : p.Coulomb = some soc) :
    (applyTempClamp (applyChargeCurrent g (applyChargeVoltage
        (applyPwrFields (initData g) p)))).Soc = some soc
    ∧ (applyTempClamp (applyChargeCurrent g (applyChargeVoltage
        (applyPwrFields (initData g) p)))).Info.MaxDischargeCurrent =
      g.global_info.MaxDischargeCurrent.getD g.MAX_DISCHARGE_CURRENT := by
  constructor
  · rw [(applyTempClamp_pres _).1, (applyChargeCurrent_pres _ _).2.2.2.1,
        (applyChargeVoltage_pres _).2.2.2.1]
    exact applyPwrFields_Soc _ _ _ hs
  · rw [(applyTempClamp_pres _).2.1, (applyChargeCurrent_pres _ _).2.2.2.2.1,
        (applyChargeVoltage_pres _).2.2.2.2.2.1, applyPwrFields_Info]
    rfl

/-- C3: with Soc decoded, Soc below 5 forces MaxDischargeCurrent = 0,
AllowToDischarge = 0 and LowSoc = 1; Soc in [5, 10) caps
MaxDischargeCurrent at min(limit, 10) and raises LowSoc; a parsed minimum
cell voltage below 2.5 V forces AllowToDischarge = 0 and
LowCellVoltage = 1. -/
theorem discharge_policy (g : Config) (p : PwrFields) (cells : List CellReading)
    (soc : ℤ) (hs : p.Coulomb = some soc) :
    (soc < 5 →
      (parse_battery_data g p cells).Info.MaxDischargeCurrent = 0
      ∧ (parse_battery_data g p cells).Io.AllowToDischarge = 0
      ∧ (parse_battery_data g p cells).Alarms.LowSoc = 1)
    ∧ (5 ≤ soc ∧ soc < 10 →
      (parse_battery_data g p cells).Info.MaxDischargeCurrent =
        min (g.global_info.MaxDischargeCurrent.getD g.MAX_DISCHARGE_CURRENT) 10
      ∧ (parse_battery_data g p cells).Alarms.LowSoc = 1)
    ∧ (∀ mn : String × ℚ, pyMinBySnd (cellVoltPairs cells) = some mn →
      mn.2 < (2.5 : ℚ) →
      (parse_battery_data g p cells).Io.AllowToDischarge = 0
      ∧ (parse_battery_data g p cells).Alarms.LowCellVoltage = 1) := by
  obtain ⟨hMDC, hLS, hATD⟩ := parse_discharge_stage g p cells
  obtain ⟨h3Soc, h3MDC⟩ := pre_discharge_facts g p soc hs
  refine ⟨?_, ?_, ?_⟩
  · intro hlow
    obtain ⟨hm, ha, hl⟩ := applyDischargeLimits_low _ _ h3Soc hlow
    exact ⟨by rw [hMDC, hm], hATD ha, hLS hl⟩
  · intro ⟨h5, h10⟩
    obtain ⟨hm, hl, _⟩ := applyDischargeLimits_mid _ _ h3Soc h5 h10
    exact ⟨by rw [hMDC, hm, h3MDC], hLS hl⟩
  · intro mn hmn hv
    show (applyCells (preCells g p) cells).Io.AllowToDischarge = 0
      ∧ (applyCells (preCells g p) cells).Alarms.LowCellVoltage = 1
    exact applyCells_clampDischarge _ _ _ hmn hv

/-- Witness for C3 at concrete inputs. -/
theorem discharge_policy_witness :
    ((parse_battery_data cfgA pwrSoc3 c3cells).Info.MaxDischargeCurrent = 0
      ∧ (parse_battery_data cfgA pwrSoc3 c3cells).Io.AllowToDischarge = 0
      ∧ (parse_battery_data cfgA pwrSoc3 c3cells).Alarms.LowSoc = 1)
    ∧ ((parse_battery_data cfgA pwrSoc3 c3cells).Io.AllowToDischarge = 0
      ∧ (parse_battery_data cfgA pwrSoc3 c3cells).Alarms.LowCellVoltage = 1) :=
  ⟨(discharge_policy cfgA pwrSoc3 c3cells 3 rfl).1 (by with_unfolding_all decide),
   (discharge_policy cfgA pwrSoc3 c3cells 3 rfl).2.2 ("C1", 12/5) (by with_unfolding_all decide) (by with_unfolding_all decide)⟩

theorem preCells_Balances (g : Config) (p : PwrFields) :
    (preCells g p).Balances = [] := by
  unfold preCells
  rw [applyEventAlarms_Balances, (applyDerived_pres _).2.2.2,
      (applyDischargeLimits_pres _).2.2.2.2.1, (applyTempClamp_pres _).2.2.2.2,
      (applyChargeCurrent_pres _ _).2.2.2.2.2, (applyChargeVoltage_pres _).2.2.2.2.2.2,
      applyPwrFields_Balances]
  rfl

/-- C4: when the spread exceeds 0.05 V and the max cell exceeds 3.4 V the
balance map holds exactly the maximum-voltage cell with flag 1; otherwise
every recorded balance flag is 0; in all cases at most one entry carries
flag 1. -/
theorem balancing_policy (g : Config) (p : PwrFields) (cells : List CellReading)
    (mn mx : String × ℚ) (hmn : pyMinBySnd (cellVoltPairs cells) = some mn)
    (hmx : pyMaxBySnd (cellVoltPairs cells) = some mx) :
    ((0.05 < mx.2 - mn.2 ∧ 3.4 < mx.2) →
      (parse_battery_data g p cells).Balances = [("Cell" ++ mx.1.drop 1, 1)])
    ∧ (¬ (0.05 < mx.2 - mn.2 ∧ 3.4 < mx.2) →
      ∀ q ∈ (parse_battery_data g p cells).Balances, q.2 = 0)
    ∧ (∀ q r : String × ℕ, q ∈ (parse_battery_data g p cells).Balances →
      r ∈ (parse_battery_data g p cells).Balances → q.2 = 1 → r.2 = 1 → q = r) := by
  obtain ⟨hthen, helse⟩ :=
    applyCells_balances (preCells g p) cells mn mx hmn hmx (preCells_Balances g p)
  refine ⟨hthen, helse, ?_⟩
  intro q r hq hr hq1 hr1
  by_cases hc : 0.05 < mx.2 - mn.2 ∧ 3.4 < mx.2
  · have hqs := hthen hc
    show q = r
    have hq' : q ∈ [("Cell" ++ mx.1.drop 1, (1 : ℕ))] := by
      rw [← hqs]; exact hq
    have hr' : r ∈ [("Cell" ++ mx.1.drop 1, (1 : ℕ))] := by
      rw [← hqs]; exact hr
    simp at hq' hr'
    rw [hq', hr']
  · have := helse hc q hq
    omega

/-- Witness for C4 at concrete inputs. -/
theorem balancing_policy_witness :
    (parse_battery_data cfgA {} c4cells).Balances = [("Cell1", 1)] :=
  (balancing_policy cfgA {} c4cells ("C2", 33/10) ("C1", 35/10)
      (by with_unfolding_all decide) (by with_unfolding_all decide)).1 (by with_unfolding_all decide)

/-! Claim C7: the register-to-alarm mapping. -/

theorem sysEvBlock_zero (d : BatteryData) : sysEvBlock d 0 = d := by
  unfold sysEvBlock
  simp

/-- C7 amended: register values are recognized only by exact match against
the fixed tables, so any value with two or more bits set decodes to nothing;
matched values change only alarm fields among HighVoltage, LowVoltage,
LowCellVoltage, HighTemperature, LowTemperature, LowSoc,
HighDischargeCurrent, HighChargeCurrent, FuseBlown and additionally
CellImbalance, which a warning-class Bat Events match sets to 1; matched
system-fault values accumulate into FuseBlown via max. -/
theorem register_alarm_mapping (d : BatteryData) (be pe se : ℕ) :
    (∀ n : ℕ, n < 2 ^ 32 → 2 ≤ popCount32 n →
      power_events_list.lookup n = none ∧ sys_events_list.lookup n = none)
    ∧ (power_events_list.lookup be = none → power_events_list.lookup pe = none →
      sys_events_list.lookup se = none → applyEventAlarms d be pe se = d)
    ∧ (applyEventAlarms d be pe se).Alarms.HighCurrent = d.Alarms.HighCurrent
    ∧ (applyEventAlarms d be pe se).Alarms.HighChargeTemperature =
        d.Alarms.HighChargeTemperature
    ∧ (applyEventAlarms d be pe se).Alarms.LowChargeTemperature =
        d.Alarms.LowChargeTemperature
    ∧ (applyEventAlarms d be pe se).Io = d.Io
    ∧ (applyEventAlarms d be pe se).Info = d.Info
    ∧ (be ≠ 0 → power_events_list.lookup be = some true →
      (applyEventAlarms d be pe se).Alarms.CellImbalance = 1)
    ∧ (se ≠ 0 → ∀ w : Bool, sys_events_list.lookup se = some w →
      (applyEventAlarms d be pe se).Alarms.FuseBlown =
        max ((applyEventAlarms d be pe 0).Alarms.FuseBlown) (severityOf w)) := by
  refine ⟨?_, applyEventAlarms_skip d be pe se, applyEventAlarms_HighCurrent d be pe se,
          applyEventAlarms_HCT d be pe se, applyEventAlarms_LCT d be pe se,
          applyEventAlarms_Io d be pe se, applyEventAlarms_Info d be pe se, ?_, ?_⟩
  · intro n _ hn
    exact ⟨lookup_multibit_none _ power_keys_singlebit n hn,
           lookup_multibit_none _ sys_keys_singlebit n hn⟩
  · intro hne hl
    unfold applyEventAlarms
    rw [(sysEvBlock_pres _ _).2.2.2.2.2.2.2.1, (powerEvBlock_pres _ _).2.2.2.2.2.2.1]
    exact batEvBlock_warn _ _ hne hl
  · intro hne w hl
    show (sysEvBlock (powerEvBlock (batEvBlock d be) pe) se).Alarms.FuseBlown = _
    rw [sysEvBlock_fuse _ _ _ hne hl,
        show applyEventAlarms d be pe 0 = powerEvBlock (batEvBlock d be) pe from
          sysEvBlock_zero _]

/-- Witness for the amended C7 at concrete inputs. -/
theorem register_alarm_mapping_witness :
    (power_events_list.lookup 3 = none ∧ sys_events_list.lookup 3 = none)
    ∧ applyEventAlarms (initData cfgA) 3 3 3 = initData cfgA
    ∧ (applyEventAlarms (initData cfgA) 1 0 0).Alarms.CellImbalance = 1
    ∧ (applyEventAlarms (initData cfgA) 0 0 4).Alarms.FuseBlown =
        max ((applyEventAlarms (initData cfgA) 0 0 0).Alarms.FuseBlown)
          (severityOf true) :=
  ⟨(register_alarm_mapping (initData cfgA) 3 3 3).1 3 (by decide) (by decide),
   (register_alarm_mapping (initData cfgA) 3 3 3).2.1 (by decide) (by decide) (by decide),
   (register_alarm_mapping (initData cfgA) 1 0 0).2.2.2.2.2.2.2.1 (by decide) (by decide),
   (register_alarm_mapping (initData cfgA) 0 0 4).2.2.2.2.2.2.2.2 (by decide)
     true (by decide)⟩

/-- Counterexample to C7 as frozen: Bat Events register 1 is a matched
warning-class value and it sets CellImbalance, an alarm field outside the
claimed set. -/
theorem register_alarm_claim_counterexample :
    power_events_list.lookup 1 = some true
    ∧ (parse_battery_data cfgA { BatEvents := 1 } []).Alarms.CellImbalance = 1
    ∧ (parse_battery_data cfgA {} []).Alarms.CellImbalance = 0 := by
  with_unfolding_all decide

/-! Claims C9 and C10: the consolidated view. -/

theorem foldl_max_mem (l : List ℕ) (a : ℕ) : l.foldl max a ∈ a :: l := by
  induction l generalizing a with
  | nil => exact List.mem_cons_self _ _
  | cons x t ih =>
    rw [List.foldl_cons]
    rcases List.mem_cons.mp (ih (max a x)) with h | h
    · rw [h]
      rcases Nat.le_total a x with hax | hxa
      · rw [Nat.max_eq_right hax]
        exact List.mem_cons_of_mem _ (List.mem_cons_self _ _)
      · rw [Nat.max_eq_left hxa]
        exact List.mem_cons_self _ _
    · exact List.mem_cons_of_mem _ (List.mem_cons_of_mem _ h)

theorem foldl_max_le (l : List ℕ) (a : ℕ) : ∀ x ∈ a :: l, x ≤ l.foldl max a := by
  induction l generalizing a with
  | nil =>
    intro x hx
    rcases List.mem_cons.mp hx with rfl | h
    · exact Nat.le_refl _
    · simp at h
  | cons y t ih =>
    intro x hx
    rw [List.foldl_cons]
    rcases List.mem_cons.mp hx with rfl | hx1
    · exact Nat.le_trans (Nat.le_max_left x y) (ih (max x y) _ (List.mem_cons_self _ _))
    · rcases List.mem_cons.mp hx1 with rfl | hx2
      · exact Nat.le_trans (Nat.le_max_right a x) (ih (max a x) _ (List.mem_cons_self _ _))
      · exact ih (max a y) x (List.mem_cons_of_mem _ hx2)

theorem foldl_max_isMax (l : List ℕ) (h : l ≠ []) : isMaxOf (l.foldl max 0) l := by
  cases l with
  | nil => exact absurd rfl h
  | cons x t =>
    rw [List.foldl_cons, Nat.zero_max]
    exact ⟨foldl_max_mem t x, fun y hy => foldl_max_le t x y hy⟩

theorem foldl_min_mem (l : List ℕ) (a : ℕ) : l.foldl min a ∈ a :: l := by
  induction l generalizing a with
  | nil => exact List.mem_cons_self _ _
  | cons x t ih =>
    rw [List.foldl_cons]
    rcases List.mem_cons.mp (ih (min a x)) with h | h
    · rw [h]
      rcases Nat.le_total a x with hax | hxa
      · rw [Nat.min_eq_left hax]
        exact List.mem_cons_self _ _
      · rw [Nat.min_eq_right hxa]
        exact List.mem_cons_of_mem _ (List.mem_cons_self _ _)
    · exact List.mem_cons_of_mem _ (List.mem_cons_of_mem _ h)

theorem foldl_min_le (l : List ℕ) (a : ℕ) : ∀ x ∈ a :: l, l.foldl min a ≤ x := by
  induction l generalizing a with
  | nil =>
    intro x hx
    rcases List.mem_cons.mp hx with rfl | h
    · exact Nat.le_refl _
    · simp at h
  | cons y t ih =>
    intro x hx
    rw [List.foldl_cons]
    rcases List.mem_cons.mp hx with rfl | hx1
    · exact Nat.le_trans (ih (min x y) _ (List.mem_cons_self _ _)) (Nat.min_le_left x y)
    · rcases List.mem_cons.mp hx1 with rfl | hx2
      · exact Nat.le_trans (ih (min a x) _ (List.mem_cons_self _ _)) (Nat.min_le_right a x)
      · exact ih (min a y) x (List.mem_cons_of_mem _ hx2)

theorem foldl_min_isMin (l : List ℕ) (h : l ≠ []) (hb : ∀ x ∈ l, x ≤ 1) :
    isMinOf (l.foldl min 1) l := by
  cases l with
  | nil => exact absurd rfl h
  | cons x t =>
    rw [List.foldl_cons, Nat.min_eq_right (hb x (List.mem_cons_self _ _))]
    exact ⟨foldl_min_mem t x, fun y hy => foldl_min_le t x y hy⟩

theorem foldl_min_proj_isMin (recs : List BatteryData) (f : BatteryData → ℕ)
    (hne : recs ≠ []) (hb : ∀ r ∈ recs, f r ≤ 1) :
    isMinOf (recs.foldl (fun x r => min x (f r)) 1) (recs.map f) := by
  rw [← List.foldl_map]
  refine foldl_min_isMin _ (fun hm => hne (List.map_eq_nil_iff.mp hm)) ?_
  intro x hx
  obtain ⟨r, hr, rfl⟩ := List.mem_map.mp hx
  exact hb r hr

theorem aggStep_Alarms (c r : BatteryData) :
    (aggStep c r).Alarms = alarmsMax c.Alarms r.Alarms := by
  unfold aggStep
  (repeat' split) <;> rfl

theorem aggStep_Io (c r : BatteryData) :
    (aggStep c r).Io = ⟨min c.Io.AllowToCharge r.Io.AllowToCharge,
                        min c.Io.AllowToDischarge r.Io.AllowToDischarge⟩ := by
  unfold aggStep
  (repeat' split) <;> rfl

theorem aggStep_counts (c r : BatteryData) :
    (aggStep c r).System.NrOfModulesOnline = c.System.NrOfModulesOnline ∧
    (aggStep c r).System.NrOfModulesOffline = c.System.NrOfModulesOffline := by
  unfold aggStep
  (repeat' split) <;> exact ⟨rfl, rfl⟩

theorem foldl_aggStep_Alarms (recs : List BatteryData) (c : BatteryData) :
    (recs.foldl aggStep c).Alarms =
      recs.foldl (fun A r => alarmsMax A r.Alarms) c.Alarms := by
  induction recs generalizing c with
  | nil => rfl
  | cons r t ih => rw [List.foldl_cons, List.foldl_cons, ih, aggStep_Alarms]

theorem foldl_aggStep_IoA (recs : List BatteryData) (c : BatteryData) :
    (recs.foldl aggStep c).Io.AllowToCharge =
      recs.foldl (fun x r => min x r.Io.AllowToCharge) c.Io.AllowToCharge := by
  induction recs generalizing c with
  | nil => rfl
  | cons r t ih => rw [List.foldl_cons, List.foldl_cons, ih, aggStep_Io]

theorem foldl_aggStep_IoD (recs : List BatteryData) (c : BatteryData) :
    (recs.foldl aggStep c).Io.AllowToDischarge =
      recs.foldl (fun x r => min x r.Io.AllowToDischarge) c.Io.AllowToDischarge := by
  induction recs generalizing c with
  | nil => rfl
  | cons r t ih => rw [List.foldl_cons, List.foldl_cons, ih, aggStep_Io]

theorem foldl_aggStep_counts (recs : List BatteryData) (c : BatteryData) :
    (recs.foldl aggStep c).System.NrOfModulesOnline = c.System.NrOfModulesOnline ∧
    (recs.foldl aggStep c).System.NrOfModulesOffline = c.System.NrOfModulesOffline := by
  induction recs generalizing c with
  | nil => exact ⟨rfl, rfl⟩
  | cons r t ih =>
    rw [List.foldl_cons]
    obtain ⟨h1, h2⟩ := ih (aggStep c r)
    obtain ⟨g1, g2⟩ := aggStep_counts c r
    exact ⟨h1.trans g1, h2.trans g2⟩

theorem foldl_alarmsMax_proj (f : Alarms → ℕ)
    (hf : ∀ A B, f (alarmsMax A B) = max (f A) (f B)) :
    ∀ (recs : List BatteryData) (A : Alarms),
      f (recs.foldl (fun A r => alarmsMax A r.Alarms) A) =
      (recs.map (fun r => f r.Alarms)).foldl max (f A) := by
  intro recs
  induction recs with
  | nil => intro A; rfl
  | cons r t ih =>
    intro A
    rw [List.foldl_cons, List.map_cons, List.foldl_cons, ih, hf]

theorem perCellStep_pres (c : BatteryData) (kvb : String × (List ℚ × List ℕ)) :
    (perCellStep c kvb).Alarms = c.Alarms ∧ (perCellStep c kvb).Io = c.Io ∧
    (perCellStep c kvb).System = c.System := by
  unfold perCellStep
  split <;> exact ⟨rfl, rfl, rfl⟩

theorem perCellMeans_pres (c : BatteryData) (agg : List (String × (List ℚ × List ℕ))) :
    (perCellMeans c agg).Alarms = c.Alarms ∧ (perCellMeans c agg).Io = c.Io ∧
    (perCellMeans c agg).System = c.System := by
  unfold perCellMeans
  induction agg generalizing c with
  | nil => exact ⟨rfl, rfl, rfl⟩
  | cons kvb t ih =>
    rw [List.foldl_cons]
    obtain ⟨h1, h2, h3⟩ := ih (perCellStep c kvb)
    obtain ⟨g1, g2, g3⟩ := perCellStep_pres c kvb
    exact ⟨h1.trans g1, h2.trans g2, h3.trans g3⟩

theorem fleetStats_pres (c : BatteryData) (recs : List BatteryData) :
    (fleetStats c recs).Io = c.Io ∧
    (fleetStats c recs).System.NrOfModulesOnline = c.System.NrOfModulesOnline ∧
    (fleetStats c recs).System.NrOfModulesOffline = c.System.NrOfModulesOffline ∧
    (fleetStats c recs).Alarms.LowVoltage = c.Alarms.LowVoltage ∧
    (fleetStats c recs).Alarms.HighVoltage = c.Alarms.HighVoltage ∧
    (fleetStats c recs).Alarms.LowSoc = c.Alarms.LowSoc ∧
    (fleetStats c recs).Alarms.HighChargeCurrent = c.Alarms.HighChargeCurrent ∧
    (fleetStats c recs).Alarms.HighDischargeCurrent = c.Alarms.HighDischargeCurrent ∧
    (fleetStats c recs).Alarms.HighCurrent = c.Alarms.HighCurrent ∧
    (fleetStats c recs).Alarms.HighChargeTemperature = c.Alarms.HighChargeTemperature ∧
    (fleetStats c recs).Alarms.LowChargeTemperature = c.Alarms.LowChargeTemperature ∧
    (fleetStats c recs).Alarms.LowCellVoltage = c.Alarms.LowCellVoltage ∧
    (fleetStats c recs).Alarms.LowTemperature = c.Alarms.LowTemperature ∧
    (fleetStats c recs).Alarms.HighTemperature = c.Alarms.HighTemperature ∧
    (fleetStats c recs).Alarms.FuseBlown = c.Alarms.FuseBlown := by
  unfold fleetStats
  (repeat' split) <;>
    exact ⟨rfl, rfl, rfl, rfl, rfl, rfl, rfl, rfl, rfl, rfl, rfl, rfl, rfl, rfl, rfl⟩

theorem fleetStats_CI (c : BatteryData) (recs : List BatteryData) :
    (fleetStats c recs).Alarms.CellImbalance =
      if fleetImbalanceFlag recs = 1 then 1 else c.Alarms.CellImbalance := by
  unfold fleetStats fleetImbalanceFlag
  cases h1 : pyMinBySnd ((recs.map (fun r => r.Voltages)).flatten) with
  | none => simp
  | some mn =>
    cases h2 : pyMaxBySnd ((recs.map (fun r => r.Voltages)).flatten) with
    | none => simp
    | some mx =>
      dsimp only
      by_cases hsp : (0.1 : ℚ) < mx.2 - mn.2
      · rw [if_pos hsp, if_pos hsp]
        simp
      · rw [if_neg hsp, if_neg hsp]
        simp

theorem fleetFlag_cases (recs : List BatteryData) :
    fleetImbalanceFlag recs = 0 ∨ fleetImbalanceFlag recs = 1 := by
  unfold fleetImbalanceFlag
  (repeat' split) <;> simp

theorem dcAggDc_pres (c : BatteryData) (recs : List BatteryData) :
    (dcAggDc c recs).Alarms = c.Alarms ∧ (dcAggDc c recs).Io = c.Io ∧
    (dcAggDc c recs).System.NrOfModulesOnline = c.System.NrOfModulesOnline ∧
    (dcAggDc c recs).System.NrOfModulesOffline = c.System.NrOfModulesOffline := by
  unfold dcAggDc
  dsimp only
  (repeat' split) <;> exact ⟨rfl, rfl, rfl, rfl⟩

theorem dcAggScalars_pres (c : BatteryData) (recs : List BatteryData) :
    (dcAggScalars c recs).Alarms = c.Alarms ∧ (dcAggScalars c recs).Io = c.Io ∧
    (dcAggScalars c recs).System.NrOfModulesOnline = c.System.NrOfModulesOnline ∧
    (dcAggScalars c recs).System.NrOfModulesOffline = c.System.NrOfModulesOffline := by
  unfold dcAggScalars
  dsimp only
  (repeat' split) <;> exact ⟨rfl, rfl, rfl, rfl⟩

theorem dcAggLimits_pres (c : BatteryData) (recs : List BatteryData) :
    (dcAggLimits c recs).Alarms = c.Alarms ∧ (dcAggLimits c recs).Io = c.Io ∧
    (dcAggLimits c recs).System.NrOfModulesOnline = c.System.NrOfModulesOnline ∧
    (dcAggLimits c recs).System.NrOfModulesOffline = c.System.NrOfModulesOffline := by
  unfold dcAggLimits
  (repeat' split) <;> exact ⟨rfl, rfl, rfl, rfl⟩

theorem dcAggTtg_pres (c : BatteryData) :
    (dcAggTtg c).Alarms = c.Alarms ∧ (dcAggTtg c).Io = c.Io ∧
    (dcAggTtg c).System.NrOfModulesOnline = c.System.NrOfModulesOnline ∧
    (dcAggTtg c).System.NrOfModulesOffline = c.System.NrOfModulesOffline := by
  unfold dcAggTtg
  (repeat' split) <;> exact ⟨rfl, rfl, rfl, rfl⟩

theorem ccv_ok_shape (g : Config) (recs : List BatteryData) (out : BatteryData)
    (hne : recs ≠ []) (h : create_consolidated_view g recs = .ok (some out)) :
    ∃ agg, cellAgg g recs = .ok agg ∧
      out = dcAggTtg (dcAggLimits (dcAggScalars (dcAggDc
        (fleetStats (perCellMeans (recs.foldl aggStep (consolidatedInit g recs.length))
          agg) recs) recs) recs) recs) := by
  unfold create_consolidated_view at h
  rw [if_neg hne] at h
  cases hA : cellAgg g recs with
  | error e =>
    rw [hA] at h
    exact absurd h (by simp)
  | ok agg =>
    rw [hA] at h
    simp only [Except.ok.injEq, Option.some.injEq] at h
    exact ⟨agg, rfl, h.symm⟩

theorem out_alarm_isMax (g : Config) (recs : List BatteryData)
    (agg : List (String × (List ℚ × List ℕ))) (hne : recs ≠ []) (f : Alarms → ℕ)
    (hf : ∀ A B, f (alarmsMax A B) = max (f A) (f B))
    (hfl : ∀ c : BatteryData, f (fleetStats c recs).Alarms = f c.Alarms)
    (hfz : f (consolidatedInit g recs.length).Alarms = 0) :
    isMaxOf (f (dcAggTtg (dcAggLimits (dcAggScalars (dcAggDc
        (fleetStats (perCellMeans (recs.foldl aggStep (consolidatedInit g recs.length))
          agg) recs) recs) recs) recs)).Alarms)
      (recs.map (fun r => f r.Alarms)) := by
  rw [(dcAggTtg_pres _).1, (dcAggLimits_pres _ _).1, (dcAggScalars_pres _ _).1,
      (dcAggDc_pres _ _).1, hfl, (perCellMeans_pres _ _).1, foldl_aggStep_Alarms,
      foldl_alarmsMax_proj f hf recs _, hfz]
  exact foldl_max_isMax _ (fun hm => hne (List.map_eq_nil_iff.mp hm))

theorem out_ioA_isMin (g : Config) (recs : List BatteryData)
    (agg : List (String × (List ℚ × List ℕ))) (hne : recs ≠ [])
    (hb : ∀ r ∈ recs, r.Io.AllowToCharge ≤ 1) :
    isMinOf ((dcAggTtg (dcAggLimits (dcAggScalars (dcAggDc
        (fleetStats (perCellMeans (recs.foldl aggStep (consolidatedInit g recs.length))
          agg) recs) recs) recs) recs)).Io.AllowToCharge)
      (recs.map (fun r => r.Io.AllowToCharge)) := by
  rw [(dcAggTtg_pres _).2.1, (dcAggLimits_pres _ _).2.1, (dcAggScalars_pres _ _).2.1,
      (dcAggDc_pres _ _).2.1, (fleetStats_pres _ _).1, (perCellMeans_pres _ _).2.1,
      foldl_aggStep_IoA]
  exact foldl_min_proj_isMin recs (fun r => r.Io.AllowToCharge) hne hb

theorem out_ioD_isMin (g : Config) (recs : List BatteryData)
    (agg : List (String × (List ℚ × List ℕ))) (hne : recs ≠ [])
    (hb : ∀ r ∈ recs, r.Io.AllowToDischarge ≤ 1) :
    isMinOf ((dcAggTtg (dcAggLimits (dcAggScalars (dcAggDc
        (fleetStats (perCellMeans (recs.foldl aggStep (consolidatedInit g recs.length))
          agg) recs) recs) recs) recs)).Io.AllowToDischarge)
      (recs.map (fun r => r.Io.AllowToDischarge)) := by
  rw [(dcAggTtg_pres _).2.1, (dcAggLimits_pres _ _).2.1, (dcAggScalars_pres _ _).2.1,
      (dcAggDc_pres _ _).2.1, (fleetStats_pres _ _).1, (perCellMeans_pres _ _).2.1,
      foldl_aggStep_IoD]
  exact foldl_min_proj_isMin recs (fun r => r.Io.AllowToDischarge) hne hb

theorem out_ci_isMax (g : Config) (recs : List BatteryData)
    (agg : List (String × (List ℚ × List ℕ))) (hne : recs ≠ [])
    (hb : ∀ r ∈ recs, r.Alarms.CellImbalance ≤ 1) :
    isMaxOf ((dcAggTtg (dcAggLimits (dcAggScalars (dcAggDc
        (fleetStats (perCellMeans (recs.foldl aggStep (consolidatedInit g recs.length))
          agg) recs) recs) recs) recs)).Alarms.CellImbalance)
      (fleetImbalanceFlag recs :: recs.map (fun r => r.Alarms.CellImbalance)) := by
  have hCI : (dcAggTtg (dcAggLimits (dcAggScalars (dcAggDc
      (fleetStats (perCellMeans (recs.foldl aggStep (consolidatedInit g recs.length))
        agg) recs) recs) recs) recs)).Alarms.CellImbalance =
      (if fleetImbalanceFlag recs = 1 then 1
       else (recs.map (fun r => r.Alarms.CellImbalance)).foldl max 0) := by
    rw [(dcAggTtg_pres _).1, (dcAggLimits_pres _ _).1, (dcAggScalars_pres _ _).1,
        (dcAggDc_pres _ _).1, fleetStats_CI, (perCellMeans_pres _ _).1,
        foldl_aggStep_Alarms,
        foldl_alarmsMax_proj (fun A => A.CellImbalance) (fun _ _ => rfl) recs _]
    rfl
  have hmax := foldl_max_isMax (recs.map (fun r => r.Alarms.CellImbalance))
    (fun hm => hne (List.map_eq_nil_iff.mp hm))
  rcases fleetFlag_cases recs with h0 | h1
  · rw [hCI, h0]
    rw [if_neg (by omega)]
    constructor
    · exact List.mem_cons_of_mem _ hmax.1
    · intro x hx
      rcases List.mem_cons.mp hx with rfl | hx1
      · exact Nat.zero_le _
      · exact hmax.2 x hx1
  · rw [hCI, h1, if_pos rfl]
    constructor
    · rw [← h1]
      exact List.mem_cons_self _ _
    · intro x hx
      rcases List.mem_cons.mp hx with rfl | hx1
      · omega
      · obtain ⟨r, hr, rfl⟩ := List.mem_map.mp hx1
        exact hb r hr

/-- C9 amended: in the consolidated record every alarm flag is the maximum of
that flag over the input records, except CellImbalance, whose value is the
maximum over the records and the fleet-spread indicator (set when the
fleet-wide max minus min cell voltage exceeds 0.1 V); the Io flags are the
per-flag minima over the records. -/
theorem consolidated_alarm_io_agg (g : Config) (recs : List BatteryData)
    (out : BatteryData) (hne : recs ≠ []) (hb : ∀ r ∈ recs, flagsBounded r)
    (h : create_consolidated_view g recs = .ok (some out)) :
    consolidatedAggSpec recs out := by
  obtain ⟨agg, hA, hout⟩ := ccv_ok_shape g recs out hne h
  unfold consolidatedAggSpec
  rw [hout]
  refine ⟨?_, ?_, ?_, ?_, ?_, ?_, ?_, ?_, ?_, ?_, ?_, ?_, ?_, ?_, ?_⟩
  · exact out_alarm_isMax g recs agg hne (fun A => A.LowVoltage) (fun _ _ => rfl)
      (fun c => (fleetStats_pres c recs).2.2.2.1) rfl
  · exact out_alarm_isMax g recs agg hne (fun A => A.HighVoltage) (fun _ _ => rfl)
      (fun c => (fleetStats_pres c recs).2.2.2.2.1) rfl
  · exact out_alarm_isMax g recs agg hne (fun A => A.LowSoc) (fun _ _ => rfl)
      (fun c => (fleetStats_pres c recs).2.2.2.2.2.1) rfl
  · exact out_alarm_isMax g recs agg hne (fun A => A.HighChargeCurrent) (fun _ _ => rfl)
      (fun c => (fleetStats_pres c recs).2.2.2.2.2.2.1) rfl
  · exact out_alarm_isMax g recs agg hne (fun A => A.HighDischargeCurrent)
      (fun _ _ => rfl) (fun c => (fleetStats_pres c recs).2.2.2.2.2.2.2.1) rfl
  · exact out_alarm_isMax g recs agg hne (fun A => A.HighCurrent) (fun _ _ => rfl)
      (fun c => (fleetStats_pres c recs).2.2.2.2.2.2.2.2.1) rfl
  · exact out_ci_isMax g recs agg hne (fun r hr => (hb r hr).1)
  · exact out_alarm_isMax g recs agg hne (fun A => A.HighChargeTemperature)
      (fun _ _ => rfl) (fun c => (fleetStats_pres c recs).2.2.2.2.2.2.2.2.2.1) rfl
  · exact out_alarm_isMax g recs agg hne (fun A => A.LowChargeTemperature)
      (fun _ _ => rfl) (fun c => (fleetStats_pres c recs).2.2.2.2.2.2.2.2.2.2.1) rfl
  · exact out_alarm_isMax g recs agg hne (fun A => A.LowCellVoltage) (fun _ _ => rfl)
      (fun c => (fleetStats_pres c recs).2.2.2.2.2.2.2.2.2.2.2.1) rfl
  · exact out_alarm_isMax g recs agg hne (fun A => A.LowTemperature) (fun _ _ => rfl)
      (fun c => (fleetStats_pres c recs).2.2.2.2.2.2.2.2.2.2.2.2.1) rfl
  · exact out_alarm_isMax g recs agg hne (fun A => A.HighTemperature) (fun _ _ => rfl)
      (fun c => (fleetStats_pres c recs).2.2.2.2.2.2.2.2.2.2.2.2.2.1) rfl
  · exact out_alarm_isMax g recs agg hne (fun A => A.FuseBlown) (fun _ _ => rfl)
      (fun c => (fleetStats_pres c recs).2.2.2.2.2.2.2.2.2.2.2.2.2.2) rfl
  · exact out_ioA_isMin g recs agg hne (fun r hr => (hb r hr).2.1)
  · exact out_ioD_isMin g recs agg hne (fun r hr => (hb r hr).2.2)

/-- Witness for the amended C9 at concrete inputs. -/
theorem consolidated_alarm_io_agg_witness : consolidatedAggSpec [recA, recB] conAB :=
  consolidated_alarm_io_agg cfgSmall [recA, recB] conAB (List.cons_ne_nil _ _)
    (fun r hr => by
      rcases List.mem_cons.mp hr with rfl | hr1
      · exact ⟨by with_unfolding_all decide, by with_unfolding_all decide,
          by with_unfolding_all decide⟩
      · rcases List.mem_cons.mp hr1 with rfl | hr2
        · exact ⟨by with_unfolding_all decide, by with_unfolding_all decide,
            by with_unfolding_all decide⟩
        · simp at hr2)
    (by with_unfolding_all rfl)

/-- Counterexample to C9 as frozen: two records whose CellImbalance flags are
both 0 consolidate, because of the fleet spread 3.0 V to 3.2 V, into a record
with CellImbalance 1, which is not the per-record maximum 0. -/
theorem consolidated_imbalance_counterexample :
    recA.Alarms.CellImbalance = 0
    ∧ recB.Alarms.CellImbalance = 0
    ∧ create_consolidated_view cfgSmall [recA, recB] = .ok (some conAB)
    ∧ conAB.Alarms.CellImbalance = 1 := by
  refine ⟨?_, ?_, ?_, ?_⟩
  · with_unfolding_all decide
  · with_unfolding_all decide
  · with_unfolding_all rfl
  · with_unfolding_all decide

/-- C10: every consolidated record produced from one record per configured
address counts all modules as online and none as offline, even when some
addresses contributed the synthetic offline record. -/
theorem consolidated_module_counts (g : Config) (f : ℕ → Option BatteryData)
    (out : BatteryData) (hne : g.BATTERY_ADDRESSES ≠ [])
    (h : create_consolidated_view g (buildCycleList g f) = .ok (some out)) :
    out.System.NrOfModulesOnline = g.BATTERY_ADDRESSES.length ∧
    out.System.NrOfModulesOffline = 0 := by
  have hlen : (buildCycleList g f).length = g.BATTERY_ADDRESSES.length := by
    unfold buildCycleList
    exact List.length_map _ _
  have hner : buildCycleList g f ≠ [] := by
    unfold buildCycleList
    intro hmap
    exact hne (List.map_eq_nil_iff.mp hmap)
  obtain ⟨agg, hA, hout⟩ := ccv_ok_shape g _ out hner h
  constructor
  · rw [hout, (dcAggTtg_pres _).2.2.1, (dcAggLimits_pres _ _).2.2.1,
        (dcAggScalars_pres _ _).2.2.1, (dcAggDc_pres _ _).2.2.1,
        (fleetStats_pres _ _).2.1, (perCellMeans_pres _ _).2.2,
        (foldl_aggStep_counts _ _).1]
    exact hlen
  · rw [hout, (dcAggTtg_pres _).2.2.2, (dcAggLimits_pres _ _).2.2.2,
        (dcAggScalars_pres _ _).2.2.2, (dcAggDc_pres _ _).2.2.2,
        (fleetStats_pres _ _).2.2.1, (perCellMeans_pres _ _).2.2,
        (foldl_aggStep_counts _ _).2]
    show (g.BATTERY_ADDRESSES.length : ℤ) - ((buildCycleList g f).length : ℤ) = 0
    rw [hlen]
    exact sub_self _

/-- Witness for C10 at concrete inputs: both addresses unreachable, the
consolidated record still reports two modules online and zero offline. -/
theorem consolidated_module_counts_witness :
    conOff.System.NrOfModulesOnline = cfgSmall.BATTERY_ADDRESSES.length ∧
    conOff.System.NrOfModulesOffline = 0 :=
  consolidated_module_counts cfgSmall (fun _ => none) conOff (by decide)
    (by with_unfolding_all rfl)

/-! Claim C8: error handling of the consolidation step in the main loop. -/

theorem dictUpd_ok {β : Type} (l : List (String × β)) (k : String) (f : β → β)
    (h : k ∈ l.map Prod.fst) :
    ∃ l₀, dictUpd l k f = .ok l₀ ∧ l₀.map Prod.fst = l.map Prod.fst := by
  induction l with
  | nil => simp at h
  | cons p t ih =>
    obtain ⟨k₀, v₀⟩ := p
    by_cases hk : k₀ = k
    · refine ⟨(k₀, f v₀) :: t, ?_, by simp⟩
      unfold dictUpd
      rw [if_pos hk]
    · have hk2 : k ∈ t.map Prod.fst := by
        rw [List.map_cons] at h
        rcases List.mem_cons.mp h with h1 | h1
        · exact absurd h1.symm hk
        · exact h1
      obtain ⟨t₀, ht, hkeys⟩ := ih hk2
      refine ⟨(k₀, v₀) :: t₀, ?_, by simp [hkeys]⟩
      unfold dictUpd
      rw [if_neg hk, ht]

theorem appendVolts_ok (vs : List (String × ℚ))
    (acc : List (String × (List ℚ × List ℕ)))
    (h : ∀ p ∈ vs, p.1 ∈ acc.map Prod.fst) :
    ∃ acc₁, appendVolts acc vs = .ok acc₁ ∧ acc₁.map Prod.fst = acc.map Prod.fst := by
  induction vs generalizing acc with
  | nil => exact ⟨acc, rfl, rfl⟩
  | cons p t ih =>
    obtain ⟨k, v⟩ := p
    obtain ⟨acc₀, hu, hkeys⟩ := dictUpd_ok acc k _ (h (k, v) (List.mem_cons_self _ _))
    obtain ⟨acc₁, ha, hkeys₁⟩ := ih acc₀
      (fun q hq => by rw [hkeys]; exact h q (List.mem_cons_of_mem _ hq))
    refine ⟨acc₁, ?_, hkeys₁.trans hkeys⟩
    unfold appendVolts
    rw [hu]
    exact ha

theorem appendBals_ok (bs : List (String × ℕ))
    (acc : List (String × (List ℚ × List ℕ)))
    (h : ∀ p ∈ bs, p.1 ∈ acc.map Prod.fst) :
    ∃ acc₁, appendBals acc bs = .ok acc₁ ∧ acc₁.map Prod.fst = acc.map Prod.fst := by
  induction bs generalizing acc with
  | nil => exact ⟨acc, rfl, rfl⟩
  | cons p t ih =>
    obtain ⟨k, b⟩ := p
    obtain ⟨acc₀, hu, hkeys⟩ := dictUpd_ok acc k _ (h (k, b) (List.mem_cons_self _ _))
    obtain ⟨acc₁, ha, hkeys₁⟩ := ih acc₀
      (fun q hq => by rw [hkeys]; exact h q (List.mem_cons_of_mem _ hq))
    refine ⟨acc₁, ?_, hkeys₁.trans hkeys⟩
    unfold appendBals
    rw [hu]
    exact ha

theorem cellAggGo_ok (g : Config) (recs : List BatteryData)
    (acc : List (String × (List ℚ × List ℕ)))
    (hacc : acc.map Prod.fst = cellKeys g)
    (h : ∀ r ∈ recs, recordKeysOK g r) :
    ∃ agg, cellAggGo acc recs = .ok agg := by
  induction recs generalizing acc with
  | nil => exact ⟨acc, rfl⟩
  | cons r rest ih =>
    obtain ⟨hV, hB⟩ := h r (List.mem_cons_self _ _)
    obtain ⟨acc₀, hu, hkeys₀⟩ := appendVolts_ok r.Voltages acc
      (fun p hp => by rw [hacc]; exact hV p hp)
    obtain ⟨acc₁, hb, hkeys₁⟩ := appendBals_ok r.Balances acc₀
      (fun p hp => by rw [hkeys₀, hacc]; exact hB p hp)
    obtain ⟨agg, hgo⟩ := ih acc₁ (hkeys₁.trans (hkeys₀.trans hacc))
      (fun q hq => h q (List.mem_cons_of_mem _ hq))
    refine ⟨agg, ?_⟩
    unfold cellAggGo
    rw [hu]
    dsimp only
    rw [hb]
    exact hgo

theorem cellAgg_ok (g : Config) (recs : List BatteryData)
    (h : ∀ r ∈ recs, recordKeysOK g r) :
    ∃ agg, cellAgg g recs = .ok agg := by
  unfold cellAgg
  have hid : ∀ l : List String,
      (l.map (fun k => (k, (([] : List ℚ), ([] : List ℕ))))).map Prod.fst = l := by
    intro l
    induction l with
    | nil => rfl
    | cons x t ih => rw [List.map_cons, List.map_cons, ih]
  exact cellAggGo_ok g recs _ (hid _) h

theorem ccv_no_error (g : Config) (recs : List BatteryData)
    (h : ∀ r ∈ recs, recordKeysOK g r) :
    ∃ o, create_consolidated_view g recs = .ok o := by
  unfold create_consolidated_view
  by_cases hne : recs = []
  · rw [if_pos hne]
    exact ⟨none, rfl⟩
  · rw [if_neg hne]
    obtain ⟨agg, hA⟩ := cellAgg_ok g recs h
    rw [hA]
    exact ⟨_, rfl⟩

theorem offline_keysOK (g : Config) : recordKeysOK g (offline_data g) :=
  ⟨fun p hp => by simp [offline_data] at hp,
   fun p hp => by simp [offline_data] at hp⟩

/-- C8 amended: a cycle of the main loop either exits at the failure
threshold or completes; it never crashes, provided every record obtained from
an address keeps its cell keys within Cell1..CellCount, because only a cell
key outside the initialized dicts makes the per-cell collection loop of
create_consolidated_view raise, and no handler around the call catches it. -/
theorem cycle_no_escape (g : Config) (c : ℕ) (f : ℕ → Option BatteryData)
    (m : Bool) (hf : ∀ a d, f a = some d → recordKeysOK g d) :
    runCycle g c f m = .exitThreshold ∨ runCycle g c f m = .completedCycle := by
  unfold runCycle
  by_cases hg : mainLoopGate c = true
  · rw [if_pos hg]
    exact Or.inl rfl
  · rw [if_neg hg]
    dsimp only
    by_cases hc : ¬buildCycleList g f = [] ∧ m = true
    · rw [if_pos hc]
      have hkeys : ∀ r ∈ buildCycleList g f, recordKeysOK g r := by
        intro r hr
        unfold buildCycleList at hr
        obtain ⟨a, ha, rfl⟩ := List.mem_map.mp hr
        cases hfa : f a with
        | none => simpa [hfa] using offline_keysOK g
        | some d => simpa [hfa] using hf a d hfa
      obtain ⟨o, ho⟩ := ccv_no_error g (buildCycleList g f) hkeys
      rw [ho]
      exact Or.inr rfl
    · rw [if_neg hc]
      exact Or.inr rfl

/-- Witness for the amended C8 at concrete inputs: both addresses offline. -/
theorem cycle_no_escape_witness :
    runCycle cfgSmall 0 (fun _ => none) true = .exitThreshold ∨
    runCycle cfgSmall 0 (fun _ => none) true = .completedCycle :=
  cycle_no_escape cfgSmall 0 (fun _ => none) true (fun _ _ h => nomatch h)

/-- Counterexample to C8 as frozen: a record whose single cell is reported
under the key Cell6 while the configuration has three cells makes the cycle
crash, because the KeyError raised inside create_consolidated_view is not
caught by any handler in the main loop. -/
theorem cycle_crash_counterexample :
    runCycle cfgSmall 0 (fun _ => some recBad) true = .crashed := by
  with_unfolding_all decide

end Extra200
